import Mathlib

/-!
# Verification of the triply-server trip/public-trip/like/clone core

A shallow embedding, in Lean 4, of the service and repository layer of the
`triply-server` Go backend (GORM over a relational store), together with
theorems settling the specification claims about it.

Conventions used throughout:

* The relational store is a `Store` record of row lists, one per table.
* GORM transactions are modelled by functions `Store → … → Except DBError Store`:
  a `.ok s'` result is the committed state, while an `.error e` result means the
  transaction rolled back, leaving the caller's store unchanged (no intermediate
  state is observable, which is exactly what `db.Transaction` guarantees).
* Wall-clock timestamps (`time.Now()`) are passed in explicitly as a `now : Nat`
  argument; `utils.GenerateID` is modelled by an abstract identifier supply
  (`IdGen`), since the spec (§6) requires only collision resistance of ids.
* Calendar dates are the `"YYYY-MM-DD"` strings stored in the `date` columns;
  day arithmetic (`end_date::timestamp - start_date::timestamp`) is performed by
  a civil-calendar day count.

String primitives (`charListLt`, `likeContains`, …) are re-implemented over
`List Char` by structural recursion so that every definition in this file is
kernel-computable on concrete inputs.
-/

deriving instance DecidableEq for Except

namespace Triply

/-! ## String primitives -/

/-- Lexicographic strict order on character lists (byte order on the ASCII
strings used for dates, matching Go's `<` / `>` on `string`). -/
def charListLt : List Char → List Char → Bool
  | [], [] => false
  | [], _ :: _ => true
  | _ :: _, [] => false
  | a :: as, b :: bs => if a < b then true else if b < a then false else charListLt as bs

/-- Go's `a < b` on strings. -/
def strLtB (a b : String) : Bool := charListLt a.data b.data

/-- Go's `a > b` on strings (used by `validateTrip`'s date-order check). -/
def strGtB (a b : String) : Bool := charListLt b.data a.data

/-- ASCII lower-casing of one character (`strings.ToLower` / SQL `LOWER`). -/
def lowerChar (c : Char) : Char :=
  if 'A' ≤ c ∧ c ≤ 'Z' then Char.ofNat (c.toNat + 32) else c

/-- Does `pat` start `hay`? -/
def startsWithCL : List Char → List Char → Bool
  | _, [] => true
  | [], _ :: _ => false
  | h :: hs, p :: ps => if h = p then startsWithCL hs ps else false

/-- Does `pat` occur inside `hay`? -/
def occursCL (hay pat : List Char) : Bool :=
  match hay with
  | [] => startsWithCL [] pat
  | _ :: rest => if startsWithCL hay pat then true else occursCL rest pat

/-- SQL `LOWER(hay) LIKE '%' || LOWER(pat) || '%'`: case-insensitive substring
match, as used by the free-text filter. -/
def likeContains (hay pat : String) : Bool :=
  occursCL (hay.data.map lowerChar) (pat.data.map lowerChar)

/-- `LIKE` on a nullable column: SQL `NULL LIKE x` is not true. -/
def likeContainsOpt (hay : Option String) (pat : String) : Bool :=
  match hay with
  | some h => likeContains h pat
  | none => false

/-! ## Calendar dates -/

/-- Value of one decimal digit. -/
def digitVal (c : Char) : Option Nat :=
  if '0' ≤ c ∧ c ≤ '9' then some (c.toNat - '0'.toNat) else none

/-- Parse a decimal numeral. -/
def parseNatAux : List Char → Nat → Option Nat
  | [], acc => some acc
  | c :: cs, acc =>
    match digitVal c with
    | some d => parseNatAux cs (acc * 10 + d)
    | none => none

/-- Split a character list at every `'-'`. -/
def splitDash (cs : List Char) : List (List Char) :=
  match cs with
  | [] => [[]]
  | c :: rest =>
    let r := splitDash rest
    if c = '-' then [] :: r
    else
      match r with
      | [] => [[c]]
      | g :: gs => (c :: g) :: gs

/-- Parse a `"YYYY-MM-DD"` date string into (year, month, day). -/
def parseDate (s : String) : Option (Nat × Nat × Nat) :=
  match splitDash s.data with
  | [y, m, d] =>
    match parseNatAux y 0, parseNatAux m 0, parseNatAux d 0 with
    | some a, some b, some c => if a = 0 then none else some (a, b, c)
    | _, _, _ => none
  | _ => none

/-- Day count of a civil date (days-from-civil; only differences matter). -/
def daysFromCivil (y m d : Nat) : Nat :=
  let yy := if m ≤ 2 then y - 1 else y
  let mp := if m ≤ 2 then m + 9 else m - 3
  365 * yy + yy / 4 - yy / 100 + yy / 400 + (153 * mp + 2) / 5 + d

/-- Day number of a stored date string (`date::timestamp`, up to a constant
offset, which cancels in every difference the queries take). Unparsable
strings — which the `type:date not null` schema excludes — count as day 0. -/
def dateToDays (s : String) : Nat :=
  match parseDate s with
  | some (y, m, d) => daysFromCivil y m d
  | none => 0

/-- Calendar month of a stored date string (`EXTRACT(MONTH FROM date)`). -/
def dateMonth (s : String) : Int :=
  match parseDate s with
  | some (_, m, _) => (m : Int)
  | none => 0

/-! ## Entity rows (src/internal/models, live schema variant)

Only the columns that the verified operations read or write are carried;
display-only columns (media overrides, custom notes, view counts, …) are
omitted. -/

/-- A row of `trips` (models.Trip scalar columns). -/
structure TripRow where
  id : String
  userId : String
  name : String
  description : Option String
  travelerCount : Int
  startDate : String
  endDate : String
  timezone : Option String
  coverImage : Option String
  heroImage : Option String
  visibility : String
  status : String
  summary : Option String
  travelerType : String
  likes : Int
  cloneCount : Int
  createdAt : Nat
  updatedAt : Nat
  publishedAt : Option Nat
  deriving DecidableEq

/-- A row of `day_plans` (models.DayPlan scalar columns). -/
structure DayPlanRow where
  id : String
  tripId : String
  date : String
  dayNumber : Int
  notes : Option String
  createdAt : Nat
  updatedAt : Nat
  deriving DecidableEq

/-- A row of `day_plan_destinations` (models.DayPlanDestination). -/
structure DayPlanDestinationRow where
  id : String
  dayPlanId : String
  destinationId : String
  orderIndex : Int
  deriving DecidableEq

/-- A row of `day_plan_activities` (models.DayPlanActivity). -/
structure DayPlanActivityRow where
  id : String
  dayPlanId : String
  activityId : String
  timeOfDay : String
  orderWithinTime : Int
  deriving DecidableEq

/-- A row of `trip_destinations` (models.TripDestination). -/
structure TripDestinationRow where
  id : String
  tripId : String
  destinationId : String
  orderIndex : Int
  deriving DecidableEq

/-- A row of `destinations` (models.Destination; only the columns the
public-trip city filter joins against). -/
structure DestinationRow where
  id : String
  city : String
  deriving DecidableEq

/-- A row of `trip_likes` (models.TripLike). -/
structure TripLikeRow where
  id : String
  userId : String
  tripId : String
  deriving DecidableEq

/-- The relational store. -/
structure Store where
  trips : List TripRow
  dayPlans : List DayPlanRow
  dayPlanDestinations : List DayPlanDestinationRow
  dayPlanActivities : List DayPlanActivityRow
  tripDestinations : List TripDestinationRow
  destinations : List DestinationRow
  tripLikes : List TripLikeRow
  deriving DecidableEq

/-! ## Aggregates (models.Trip with its preloaded relations) -/

/-- A models.DayPlan with its preloaded link rows. -/
structure DayPlanAgg where
  row : DayPlanRow
  dayPlanDestinations : List DayPlanDestinationRow
  dayPlanActivities : List DayPlanActivityRow
  deriving DecidableEq

/-- A models.Trip with its preloaded subtree. -/
structure TripAgg where
  row : TripRow
  dayPlans : List DayPlanAgg
  tripDestinations : List TripDestinationRow
  deriving DecidableEq

/-! ## Errors -/

/-- Store-level errors (gorm.ErrRecordNotFound and key-constraint failures). -/
inductive DBError where
  | recordNotFound
  | duplicateKey (table id : String)
  | foreignKey (table ref : String)
  deriving DecidableEq

/-- utils.AppError, by constructor kind. -/
inductive AppError where
  | notFound (resource : String)
  | validation (message : String)
  | db (e : DBError)
  deriving DecidableEq

/-! ## Sorting (SQL `ORDER BY`, a stable insertion sort) -/

/-- Insert into a `le`-sorted list. -/
def insertSorted (le : α → α → Bool) (a : α) : List α → List α
  | [] => [a]
  | b :: bs => if le a b then a :: b :: bs else b :: insertSorted le a bs

/-- Stable sort by a boolean `le` (the ordering a SQL `ORDER BY` produces). -/
def sortByB (le : α → α → Bool) : List α → List α
  | [] => []
  | a :: as => insertSorted le a (sortByB le as)

theorem insertSorted_perm (le : α → α → Bool) (a : α) :
    ∀ l : List α, (insertSorted le a l).Perm (a :: l) := by
  intro l
  induction l with
  | nil => simp [insertSorted]
  | cons b bs ih =>
    simp only [insertSorted]
    by_cases h : le a b = true
    · simp [h]
    · simp only [h, if_neg]
      exact (List.Perm.cons b ih).trans (List.Perm.swap a b bs)

theorem sortByB_perm (le : α → α → Bool) :
    ∀ l : List α, (sortByB le l).Perm l := by
  intro l
  induction l with
  | nil => simp [sortByB]
  | cons a as ih =>
    exact (insertSorted_perm le a (sortByB le as)).trans (List.Perm.cons a ih)

theorem mem_sortByB {le : α → α → Bool} {l : List α} {a : α} :
    a ∈ sortByB le l ↔ a ∈ l :=
  (sortByB_perm le l).mem_iff

theorem length_sortByB (le : α → α → Bool) (l : List α) :
    (sortByB le l).length = l.length :=
  (sortByB_perm le l).length_eq

/-! ## Preloading (the `Preload(..., Order(...))` chains shared by
`tripRepository.FindByID` / `FindByUserID` and `publicTripRepository.FindByID`) -/

/-- `ORDER BY day_plan_activities.time_of_day, order_within_time ASC`. -/
def dpaLe (a b : DayPlanActivityRow) : Bool :=
  strLtB a.timeOfDay b.timeOfDay ||
    (decide (a.timeOfDay = b.timeOfDay) && decide (a.orderWithinTime ≤ b.orderWithinTime))

/-- Load one day plan with its ordered link rows. -/
def loadDayPlan (s : Store) (dp : DayPlanRow) : DayPlanAgg :=
  { row := dp
    dayPlanDestinations :=
      sortByB (fun a b => decide (a.orderIndex ≤ b.orderIndex))
        (s.dayPlanDestinations.filter (fun r => decide (r.dayPlanId = dp.id)))
    dayPlanActivities :=
      sortByB dpaLe (s.dayPlanActivities.filter (fun r => decide (r.dayPlanId = dp.id))) }

/-- Load a trip row's whole subtree, each collection ordered by its explicit
order column. -/
def loadTripAgg (s : Store) (t : TripRow) : TripAgg :=
  { row := t
    dayPlans :=
      (sortByB (fun a b => decide (a.dayNumber ≤ b.dayNumber))
        (s.dayPlans.filter (fun r => decide (r.tripId = t.id)))).map (loadDayPlan s)
    tripDestinations :=
      sortByB (fun a b => decide (a.orderIndex ≤ b.orderIndex))
        (s.tripDestinations.filter (fun r => decide (r.tripId = t.id))) }

/-! ## Identifier generation

`utils.GenerateID(prefix)` concatenates the prefix, a nanosecond timestamp and
a random component; spec §6 demands only that the results be collision
resistant.  The embedding abstracts it as a supply `stream : Nat → String`
consumed left to right; freshness and injectivity of the supply appear as
explicit hypotheses of the theorems that need them. -/

/-- The abstract identifier supply backing `utils.GenerateID`. -/
structure IdGen where
  stream : Nat → String
  next : Nat

/-- Draw the next identifier (the `prefix` argument of `utils.GenerateID` is
folded into the abstract supply). -/
def genId (g : IdGen) : String × IdGen :=
  (g.stream g.next, { g with next := g.next + 1 })

/-- Every identifier in every table of the store (used to phrase freshness of
a generator with respect to a store). -/
def storeIds (s : Store) : List String :=
  s.trips.map (·.id) ++ s.dayPlans.map (·.id) ++ s.dayPlanDestinations.map (·.id) ++
    s.dayPlanActivities.map (·.id) ++ s.tripDestinations.map (·.id) ++
    s.destinations.map (·.id) ++ s.tripLikes.map (·.id)

/-! ## Row inserts (`tx.Create`, failing on a primary-key conflict or a
foreign-key violation) -/

/-- Insert a `trips` row. -/
def insertTripRow (s : Store) (t : TripRow) : Except DBError Store :=
  if s.trips.any (fun r => decide (r.id = t.id)) then
    .error (.duplicateKey "trips" t.id)
  else
    .ok { s with trips := s.trips ++ [t] }

/-- Insert a `day_plans` row: fails on a primary-key conflict, and on the
`day_plans.trip_id → trips.id` foreign key (AutoMigrate creates it from the
model's `foreignKey:TripID` constraint tag) when no trip row carries the
referenced id. -/
def insertDayPlanRow (s : Store) (r : DayPlanRow) : Except DBError Store :=
  if s.dayPlans.any (fun x => decide (x.id = r.id)) then
    .error (.duplicateKey "day_plans" r.id)
  else if s.trips.any (fun x => decide (x.id = r.tripId)) then
    .ok { s with dayPlans := s.dayPlans ++ [r] }
  else
    .error (.foreignKey "day_plans" r.tripId)

/-- Insert a `day_plan_destinations` row, re-parented to `dayPlanId`. -/
def insertDPDRow (s : Store) (dayPlanId : String) (r : DayPlanDestinationRow) :
    Except DBError Store :=
  if s.dayPlanDestinations.any (fun x => decide (x.id = r.id)) then
    .error (.duplicateKey "day_plan_destinations" r.id)
  else
    .ok { s with dayPlanDestinations :=
            s.dayPlanDestinations ++ [{ r with dayPlanId := dayPlanId }] }

/-- Insert a `day_plan_activities` row, re-parented to `dayPlanId`. -/
def insertDPARow (s : Store) (dayPlanId : String) (r : DayPlanActivityRow) :
    Except DBError Store :=
  if s.dayPlanActivities.any (fun x => decide (x.id = r.id)) then
    .error (.duplicateKey "day_plan_activities" r.id)
  else
    .ok { s with dayPlanActivities :=
            s.dayPlanActivities ++ [{ r with dayPlanId := dayPlanId }] }

/-- Insert a `trip_destinations` row, re-parented to `tripId`. -/
def insertTDRow (s : Store) (tripId : String) (r : TripDestinationRow) :
    Except DBError Store :=
  if s.tripDestinations.any (fun x => decide (x.id = r.id)) then
    .error (.duplicateKey "trip_destinations" r.id)
  else
    .ok { s with tripDestinations :=
            s.tripDestinations ++ [{ r with tripId := tripId }] }

/-- Insert a list of `day_plan_destinations` rows. -/
def insertDPDRows (s : Store) (dayPlanId : String) :
    List DayPlanDestinationRow → Except DBError Store
  | [] => .ok s
  | r :: rest =>
    match insertDPDRow s dayPlanId r with
    | .error e => .error e
    | .ok s1 => insertDPDRows s1 dayPlanId rest

/-- Insert a list of `day_plan_activities` rows. -/
def insertDPARows (s : Store) (dayPlanId : String) :
    List DayPlanActivityRow → Except DBError Store
  | [] => .ok s
  | r :: rest =>
    match insertDPARow s dayPlanId r with
    | .error e => .error e
    | .ok s1 => insertDPARows s1 dayPlanId rest

/-- `tx.Create(&dayPlan)`: persist one day plan and its link-row associations,
re-parented to `tripId`. -/
def insertDayPlanAgg (s : Store) (tripId : String) (dp : DayPlanAgg) :
    Except DBError Store :=
  match insertDayPlanRow s { dp.row with tripId := tripId } with
  | .error e => .error e
  | .ok s1 =>
    match insertDPDRows s1 dp.row.id dp.dayPlanDestinations with
    | .error e => .error e
    | .ok s2 => insertDPARows s2 dp.row.id dp.dayPlanActivities

/-- The `for i := range trip.DayPlans { tx.Create(&trip.DayPlans[i]) }` loop. -/
def insertDayPlanAggs (s : Store) (tripId : String) :
    List DayPlanAgg → Except DBError Store
  | [] => .ok s
  | dp :: rest =>
    match insertDayPlanAgg s tripId dp with
    | .error e => .error e
    | .ok s1 => insertDayPlanAggs s1 tripId rest

/-- Insert a list of `trip_destinations` rows. -/
def insertTDRows (s : Store) (tripId : String) :
    List TripDestinationRow → Except DBError Store
  | [] => .ok s
  | r :: rest =>
    match insertTDRow s tripId r with
    | .error e => .error e
    | .ok s1 => insertTDRows s1 tripId rest

/-! ## tripRepository (src/internal/repository/trip_repository.go) -/

/-- `tripRepository.FindByID`: `WHERE id = ? AND user_id = ?`, preloading the
whole subtree; `gorm.ErrRecordNotFound` when no row matches. -/
def tripFindByID (s : Store) (tripId userId : String) : Except DBError TripAgg :=
  match s.trips.find? (fun t => decide (t.id = tripId) && decide (t.userId = userId)) with
  | some t => .ok (loadTripAgg s t)
  | none => .error .recordNotFound

/-- `db.Transaction`: commit the body's final state, or roll back to the
caller's store when the body failed partway — no intermediate state is
observable either way. -/
def runTx (s : Store) (r : Except DBError Store) : Store × Option DBError :=
  match r with
  | .ok s1 => (s1, none)
  | .error e => (s, some e)

/-- `tripRepository.Create` transaction body: `tx.Create(trip)` persists the
trip row and — via GORM's create-time association autosave, the same autosave
that persists the trip-destination rows — the day plans with their nested link
rows; the explicit `for i := range trip.DayPlans { tx.Create(&trip.DayPlans[i]) }`
loop then re-inserts each day plan, so it hits a primary-key conflict whenever
the trip carries any day plan, and the conflict aborts the transaction. -/
def tripCreateSteps (s : Store) (trip : TripAgg) : Except DBError Store :=
  match insertTripRow s trip.row with
  | .error e => .error e
  | .ok s1 =>
    match insertDayPlanAggs s1 trip.row.id trip.dayPlans with
    | .error e => .error e
    | .ok s2 =>
      match insertTDRows s2 trip.row.id trip.tripDestinations with
      | .error e => .error e
      | .ok s3 => insertDayPlanAggs s3 trip.row.id trip.dayPlans

/-- `tripRepository.Create`: the transaction body run under rollback
semantics. -/
def tripRepoCreate (s : Store) (trip : TripAgg) : Store × Option DBError :=
  runTx s (tripCreateSteps s trip)

/-- GORM's struct-form `Updates` skips zero-valued fields: a zero scalar
(`""`, `0`, `nil`) leaves the stored column untouched. -/
def updStr (old new : String) : String := if new = "" then old else new

/-- Zero-skipping update of an optional column (`nil` pointer = zero). -/
def updOpt (old new : Option α) : Option α :=
  match new with
  | none => old
  | some v => some v

/-- Zero-skipping update of an integer column. -/
def updInt (old new : Int) : Int := if new = 0 then old else new

/-- Zero-skipping update of a timestamp column. -/
def updNat (old new : Nat) : Nat := if new = 0 then old else new

/-- `tx.Model(&Trip{}).Where("id = ? AND user_id = ?").Updates(trip)`: copy the
non-zero scalar columns of `u` onto the matched row. -/
def applyTripUpdates (r u : TripRow) : TripRow :=
  { r with
    name := updStr r.name u.name
    description := updOpt r.description u.description
    travelerCount := updInt r.travelerCount u.travelerCount
    startDate := updStr r.startDate u.startDate
    endDate := updStr r.endDate u.endDate
    timezone := updOpt r.timezone u.timezone
    coverImage := updOpt r.coverImage u.coverImage
    heroImage := updOpt r.heroImage u.heroImage
    visibility := updStr r.visibility u.visibility
    status := updStr r.status u.status
    summary := updOpt r.summary u.summary
    travelerType := updStr r.travelerType u.travelerType
    likes := updInt r.likes u.likes
    cloneCount := updInt r.cloneCount u.cloneCount
    createdAt := updNat r.createdAt u.createdAt
    updatedAt := updNat r.updatedAt u.updatedAt
    publishedAt := updOpt r.publishedAt u.publishedAt }

/-- Delete every `day_plans` row of a trip; the `OnDelete:CASCADE` constraints
take the day plans' link rows with them. -/
def deleteDayPlansCascade (s : Store) (tripId : String) : Store :=
  let doomed := s.dayPlans.filter (fun r => decide (r.tripId = tripId))
  { s with
    dayPlans := s.dayPlans.filter (fun r => !decide (r.tripId = tripId))
    dayPlanDestinations :=
      s.dayPlanDestinations.filter
        (fun r => !doomed.any (fun d => decide (d.id = r.dayPlanId)))
    dayPlanActivities :=
      s.dayPlanActivities.filter
        (fun r => !doomed.any (fun d => decide (d.id = r.dayPlanId))) }

/-- Delete every `trip_destinations` row of a trip. -/
def deleteTripDestinations (s : Store) (tripId : String) : Store :=
  { s with tripDestinations :=
      s.tripDestinations.filter (fun r => !decide (r.tripId = tripId)) }

/-- `tripRepository.Update` transaction body: update the scalar columns of the
row matching `(id, user_id)` (zero matched rows is not an error), delete all
existing day plans (cascading to their link rows) and trip destinations of
that trip id — note: these deletes filter on `trip_id` only — then recreate
the supplied subtree re-parented to the trip id. -/
def tripUpdateSteps (s : Store) (trip : TripAgg) : Except DBError Store :=
  let s1 :=
    { s with trips :=
        s.trips.map (fun r =>
          if decide (r.id = trip.row.id) && decide (r.userId = trip.row.userId) then
            applyTripUpdates r trip.row
          else r) }
  let s2 := deleteDayPlansCascade s1 trip.row.id
  let s3 := deleteTripDestinations s2 trip.row.id
  match insertDayPlanAggs s3 trip.row.id trip.dayPlans with
  | .error e => .error e
  | .ok s4 => insertTDRows s4 trip.row.id trip.tripDestinations

/-- `tripRepository.Update`: the transaction body run under rollback
semantics. -/
def tripRepoUpdate (s : Store) (trip : TripAgg) : Store × Option DBError :=
  runTx s (tripUpdateSteps s trip)

/-- `tripRepository.Delete`: `WHERE id = ? AND user_id = ?`; deleting zero rows
is not an error, a matched row cascades to its whole subtree. -/
def tripRepoDelete (s : Store) (tripId userId : String) : Except DBError Store :=
  if s.trips.any (fun t => decide (t.id = tripId) && decide (t.userId = userId)) then
    let s1 :=
      { s with trips :=
          s.trips.filter (fun t => !(decide (t.id = tripId) && decide (t.userId = userId))) }
    .ok (deleteTripDestinations (deleteDayPlansCascade s1 tripId) tripId)
  else
    .ok s

/-! ## publicTripRepository (src/internal/repository/public_trip_repository.go,
the live variant wired in cmd/server/main.go) -/

/-- `publicTripRepository.FindByID`: `WHERE id = ? AND visibility = 'public'`,
preloading the whole subtree. -/
def publicFindByID (s : Store) (id : String) : Except DBError TripAgg :=
  match s.trips.find? (fun t => decide (t.id = id) && decide (t.visibility = "public")) with
  | some t => .ok (loadTripAgg s t)
  | none => .error .recordNotFound

/-- `publicTripRepository.ToggleVisibility` (live variant, lines 243–254): a
map-form `Updates` writing exactly the `visibility` and `updated_at` columns of
the row matching `(id, user_id)`.  It never touches `published_at`. -/
def toggleVisibility (s : Store) (now : Nat) (tripId userId visibility : String) :
    Store :=
  { s with trips :=
      s.trips.map (fun t =>
        if decide (t.id = tripId) && decide (t.userId = userId) then
          { t with visibility := visibility, updatedAt := now }
        else t) }

/-- `publicTripRepository.IncrementCloneCount`:
`UPDATE trips SET clone_count = clone_count + 1 WHERE id = ?`. -/
def incrementCloneCount (s : Store) (tripId : String) : Store :=
  { s with trips :=
      s.trips.map (fun t =>
        if decide (t.id = tripId) then { t with cloneCount := t.cloneCount + 1 } else t) }

/-! ## tripLikeRepository (src/internal/repository/trip_like_repository.go) -/

/-- The like counter currently stored for a trip (0 when the trip row is
absent, in which case `ToggleLike`'s final read fails anyway). -/
def likesOf (s : Store) (tripId : String) : Int :=
  match s.trips.find? (fun t => decide (t.id = tripId)) with
  | some t => t.likes
  | none => 0

/-- Is there a `trip_likes` row for this (user, trip) pair? -/
def hasLike (s : Store) (userId tripId : String) : Bool :=
  s.tripLikes.any (fun r => decide (r.userId = userId) && decide (r.tripId = tripId))

/-- `UPDATE trips SET likes = likes + 1 WHERE id = ?`. -/
def incLikes (s : Store) (tripId : String) : Store :=
  { s with trips :=
      s.trips.map (fun t =>
        if decide (t.id = tripId) then { t with likes := t.likes + 1 } else t) }

/-- `UPDATE trips SET likes = likes - 1 WHERE id = ? AND likes > 0` — the
floor-clamped decrement. -/
def decLikes (s : Store) (tripId : String) : Store :=
  { s with trips :=
      s.trips.map (fun t =>
        if decide (t.id = tripId) && decide (0 < t.likes) then
          { t with likes := t.likes - 1 }
        else t) }

/-- `tripLikeRepository.ToggleLike`, one transaction: look the (user, trip)
like row up; if absent, insert a new row under a generated id and increment the
trip's counter; if present, delete that row (by its id) and apply the clamped
decrement; finally read the trip's counter back inside the same transaction and
return it (a missing trip row fails the read and rolls the whole toggle back).
Collisions of the random like-row ids are not modelled (spec §6 makes the id
supply collision resistant). -/
def toggleLike (s : Store) (g : IdGen) (userId tripId : String) :
    Except DBError (Bool × Int) × Store × IdGen :=
  match s.tripLikes.find? (fun r => decide (r.userId = userId) && decide (r.tripId = tripId)) with
  | none =>
    let (newId, g1) := genId g
    let s1 := { s with tripLikes := s.tripLikes ++ [{ id := newId, userId, tripId }] }
    let s2 := incLikes s1 tripId
    match s2.trips.find? (fun t => decide (t.id = tripId)) with
    | some t => (.ok (true, t.likes), s2, g1)
    | none => (.error .recordNotFound, s, g1)
  | some l =>
    let s1 := { s with tripLikes := s.tripLikes.filter (fun r => !decide (r.id = l.id)) }
    let s2 := decLikes s1 tripId
    match s2.trips.find? (fun t => decide (t.id = tripId)) with
    | some t => (.ok (false, t.likes), s2, g)
    | none => (.error .recordNotFound, s, g)

/-- Run a sequence of toggles (each element a (user, trip) pair), keeping each
call's post-state. -/
def runToggles (s : Store) (g : IdGen) : List (String × String) → Store
  | [] => s
  | (u, t) :: rest =>
    let (_, s1, g1) := toggleLike s g u t
    runToggles s1 g1 rest

/-! ## Public Trip Query Engine
(`publicTripRepository.FindAll`, live variant, lines 48–185) -/

/-- repository.DurationRange. -/
structure DurationRange where
  minDays : Option Int
  maxDays : Option Int
  deriving DecidableEq

/-- repository.PublicTripFilters. -/
structure PublicTripFilters where
  query : Option String
  cities : List String
  durations : List DurationRange
  months : List Int
  travelerTypes : List String
  sort : String
  page : Int
  pageSize : Int
  deriving DecidableEq

/-- `EXTRACT(DAY FROM (end_date::timestamp - start_date::timestamp)) + 1`:
the trip's duration in inclusive days. -/
def tripDuration (t : TripRow) : Int :=
  (dateToDays t.endDate : Int) - (dateToDays t.startDate : Int) + 1

/-- The SQL condition `FindAll` builds for one duration range: both bounds,
only a lower bound, only an upper bound — or no condition at all when the
range carries neither bound. -/
def rangeCond (d : Int) (r : DurationRange) : Option Bool :=
  match r.minDays, r.maxDays with
  | some lo, some hi => some (decide (lo ≤ d) && decide (d ≤ hi))
  | some lo, none => some (decide (lo ≤ d))
  | none, some hi => some (decide (d ≤ hi))
  | none, none => none

/-- The duration filter: the per-range conditions joined with `OR`; when no
condition was built (no range, or only bound-less ranges) no duration
constraint is applied at all. -/
def durationsMatch (rs : List DurationRange) (d : Int) : Bool :=
  let conds := rs.filterMap (rangeCond d)
  if conds.isEmpty then true else conds.any id

/-- The free-text filter:
`LOWER(name) LIKE ? OR LOWER(summary) LIKE ? OR LOWER(description) LIKE ?`,
skipped for an absent or empty query. -/
def textMatch (q : Option String) (t : TripRow) : Bool :=
  match q with
  | none => true
  | some qs =>
    if qs = "" then true
    else likeContains t.name qs || likeContainsOpt t.summary qs || likeContainsOpt t.description qs

/-- The city filter: `EXISTS (… trip_destinations td JOIN destinations d …
WHERE td.trip_id = trips.id AND d.city IN ?)`. -/
def citiesMatch (s : Store) (cities : List String) (t : TripRow) : Bool :=
  cities.isEmpty ||
    s.tripDestinations.any (fun td =>
      decide (td.tripId = t.id) &&
        s.destinations.any (fun d =>
          decide (d.id = td.destinationId) && cities.any (fun c => decide (c = d.city))))

/-- The traveler-type filter: `trips.traveler_type IN ?`. -/
def travelerTypesMatch (types : List String) (t : TripRow) : Bool :=
  types.isEmpty || types.any (fun ty => decide (ty = t.travelerType))

/-- The month filter: `EXISTS (SELECT 1 FROM day_plans dp WHERE dp.trip_id =
trips.id AND EXTRACT(MONTH FROM dp.date::timestamp) IN ? …)` — the `ORDER BY
… LIMIT 1` inside the subquery does not change which trips satisfy the
`EXISTS`, so a trip matches when any of its day plans falls in a listed
month. -/
def monthsMatch (s : Store) (months : List Int) (t : TripRow) : Bool :=
  months.isEmpty ||
    s.dayPlans.any (fun dp =>
      decide (dp.tripId = t.id) && months.any (fun m => decide (m = dateMonth dp.date)))

/-- The conditions of the item query of `FindAll` (lines 48–97): public-only
eligibility plus every supplied filter. -/
def findAllItemsPred (s : Store) (f : PublicTripFilters) (t : TripRow) : Bool :=
  decide (t.visibility = "public") && textMatch f.query t && citiesMatch s f.cities t &&
    durationsMatch f.durations (tripDuration t) && travelerTypesMatch f.travelerTypes t &&
    monthsMatch s f.months t

/-- The conditions of the separately-built count query of `FindAll`
(lines 99–152), which re-applies the base visibility condition and each filter
before counting. -/
def findAllCountPred (s : Store) (f : PublicTripFilters) (t : TripRow) : Bool :=
  decide (t.visibility = "public") && textMatch f.query t && citiesMatch s f.cities t &&
    durationsMatch f.durations (tripDuration t) && travelerTypesMatch f.travelerTypes t &&
    monthsMatch s f.months t

/-- `trips.end_date - trips.start_date`, the date-difference key of the
`shortest` / `longest` sort orders. -/
def dateSpan (t : TripRow) : Int :=
  (dateToDays t.endDate : Int) - (dateToDays t.startDate : Int)

/-- The `ORDER BY` of `FindAll`: `mostRecent`, `shortest`, `longest`, and the
`featured` default (likes descending, then recency descending). -/
def findAllSortLe (sort : String) (a b : TripRow) : Bool :=
  match sort with
  | "mostRecent" => decide (b.updatedAt ≤ a.updatedAt)
  | "shortest" => decide (dateSpan a ≤ dateSpan b)
  | "longest" => decide (dateSpan b ≤ dateSpan a)
  | _ => decide (b.likes < a.likes) ||
      (decide (b.likes = a.likes) && decide (b.updatedAt ≤ a.updatedAt))

/-- The pre-pagination result set of the item query: the trips satisfying the
base visibility condition and every supplied filter. -/
def findAllMatches (s : Store) (f : PublicTripFilters) : List TripRow :=
  s.trips.filter (findAllItemsPred s f)

/-- The item rows: the filtered set, sorted, then paginated with
`Offset((page-1)*pageSize).Limit(pageSize)`. -/
def findAllItems (s : Store) (f : PublicTripFilters) : List TripRow :=
  ((sortByB (findAllSortLe f.sort) (findAllMatches s f)).drop
      (((f.page - 1) * f.pageSize).toNat)).take f.pageSize.toNat

/-- The total from the separately built count query. -/
def findAllTotal (s : Store) (f : PublicTripFilters) : Int :=
  ((s.trips.filter (findAllCountPred s f)).length : Int)

/-- `publicTripRepository.FindAll`: the filtered, sorted, paginated item rows
together with the total of the count query.  (The source additionally preloads
each returned row's trip destinations and day plans; the later DTO projection
is one-to-one and order preserving, so the embedding keeps the rows.) -/
def findAll (s : Store) (f : PublicTripFilters) : List TripRow × Int :=
  (findAllItems s f, findAllTotal s f)

/-! ## publicTripService.ListPublicTrips (src/unnamed/part_002, live variant) -/

/-- dto.ListPublicTripsRequest (filter, sort and paging fields). -/
structure ListPublicTripsRequest where
  query : Option String
  cities : List String
  durations : List DurationRange
  months : List Int
  travelerTypes : List String
  sort : String
  page : Int
  pageSize : Int
  deriving DecidableEq

/-- dto.ListPublicTripsResponse.  The source maps each returned row to a
`PublicTripSummary` DTO one-to-one; the embedding keeps the rows.  The
batched `hasLiked` annotation for authenticated callers decorates the
summaries and is not modelled here. -/
structure ListPublicTripsResponse where
  trips : List TripRow
  total : Int
  page : Int
  pageSize : Int
  hasMorePages : Bool
  deriving DecidableEq

/-- The defaulting step of `ListPublicTrips`: page 1 and page size 12 replace
non-positive (or absent, which decodes to 0) values, and an empty sort key
becomes `featured`; the filter fields carry over. -/
def normFilters (req : ListPublicTripsRequest) : PublicTripFilters :=
  { query := req.query, cities := req.cities, durations := req.durations,
    months := req.months, travelerTypes := req.travelerTypes,
    sort := if req.sort = "" then "featured" else req.sort,
    page := if req.page ≤ 0 then 1 else req.page,
    pageSize := if req.pageSize ≤ 0 then 12 else req.pageSize }

/-- `publicTripService.ListPublicTrips`: apply the defaults, run `FindAll`,
and derive `hasMorePages` as `page * pageSize < total`. -/
def listPublicTrips (s : Store) (req : ListPublicTripsRequest) :
    ListPublicTripsResponse :=
  let f := normFilters req
  let r := findAll s f
  { trips := r.1, total := r.2, page := f.page, pageSize := f.pageSize,
    hasMorePages := decide (f.page * f.pageSize < r.2) }

/-! ## tripService (src/unnamed/part_001, the live variant wired in
cmd/server/main.go) -/

/-- `tripService.GetTrip`: FindByID under ownership, mapping
`gorm.ErrRecordNotFound` to the NotFound app error. -/
def getTrip (s : Store) (tripId userId : String) : Except AppError TripAgg :=
  match tripFindByID s tripId userId with
  | .ok t => .ok t
  | .error .recordNotFound => .error (.notFound "Trip")
  | .error e => .error (.db e)

/-- The service-side day-plan preparation shared by `CreateTrip` and
`UpdateTrip`: give every day plan without an id a generated one, re-parent it
to the trip id, and stamp its updated timestamp. -/
def fillDayPlanIds (now : Nat) (g : IdGen) (tripId : String) :
    List DayPlanAgg → List DayPlanAgg × IdGen
  | [] => ([], g)
  | d :: rest =>
    let (id1, g1) := if d.row.id = "" then genId g else (d.row.id, g)
    let d1 : DayPlanAgg :=
      { d with row := { d.row with id := id1, tripId := tripId, updatedAt := now } }
    let (others, g2) := fillDayPlanIds now g1 tripId rest
    (d1 :: others, g2)

/-- `tripService.UpdateTrip` (src/unnamed/part_001 lines 94–115): stamp the
trip's updated timestamp, prepare the supplied day plans, and hand the trip to
`tripRepository.Update`; a `gorm.ErrRecordNotFound` from the repository would
map to NotFound.  On success the service returns the supplied trip. -/
def updateTrip (now : Nat) (s : Store) (g : IdGen) (trip : TripAgg) :
    Except AppError (TripAgg × Store) × IdGen :=
  let row := { trip.row with updatedAt := now }
  let (plans, g1) := fillDayPlanIds now g trip.row.id trip.dayPlans
  let trip1 : TripAgg := { trip with row := row, dayPlans := plans }
  match tripRepoUpdate s trip1 with
  | (_, some DBError.recordNotFound) => (.error (.notFound "Trip"), g1)
  | (_, some e) => (.error (.db e), g1)
  | (s1, none) => (.ok (trip1, s1), g1)

/-- `tripService.DeleteTrip`: pass-through to `tripRepository.Delete`. -/
def deleteTrip (s : Store) (tripId userId : String) : Except AppError Store :=
  match tripRepoDelete s tripId userId with
  | .ok s1 => .ok s1
  | .error e => .error (.db e)

/-! ### tripService.ClonePublicTrip (src/unnamed/part_001 lines 144–249) -/

/-- Clone a day's `day_plan_destinations` link rows: each gets a brand-new id
and is re-parented to the cloned day plan, while its destination reference and
order index are copied verbatim. -/
def cloneDPDs (g : IdGen) (dayId : String) :
    List DayPlanDestinationRow → List DayPlanDestinationRow × IdGen
  | [] => ([], g)
  | r :: rest =>
    let (newId, g1) := genId g
    let (others, g2) := cloneDPDs g1 dayId rest
    ({ id := newId, dayPlanId := dayId, destinationId := r.destinationId,
       orderIndex := r.orderIndex } :: others, g2)

/-- Clone a day's `day_plan_activities` link rows: brand-new id, re-parented,
activity reference and ordering copied verbatim. -/
def cloneDPAs (g : IdGen) (dayId : String) :
    List DayPlanActivityRow → List DayPlanActivityRow × IdGen
  | [] => ([], g)
  | r :: rest =>
    let (newId, g1) := genId g
    let (others, g2) := cloneDPAs g1 dayId rest
    ({ id := newId, dayPlanId := dayId, activityId := r.activityId,
       timeOfDay := r.timeOfDay, orderWithinTime := r.orderWithinTime } :: others, g2)

/-- Clone one day plan: a brand-new day id re-parented to the cloned trip,
scalar fields copied, timestamps stamped to `now`, and both link collections
cloned. -/
def cloneDayPlan (now : Nat) (g : IdGen) (tripId : String) (d : DayPlanAgg) :
    DayPlanAgg × IdGen :=
  let (dayId, g1) := genId g
  let (dpds, g2) := cloneDPDs g1 dayId d.dayPlanDestinations
  let (dpas, g3) := cloneDPAs g2 dayId d.dayPlanActivities
  let newRow : DayPlanRow :=
    { id := dayId
      tripId := tripId
      date := d.row.date
      dayNumber := d.row.dayNumber
      notes := d.row.notes
      createdAt := now
      updatedAt := now }
  ({ row := newRow, dayPlanDestinations := dpds, dayPlanActivities := dpas }, g3)

/-- Clone the day plans in order. -/
def cloneDayPlans (now : Nat) (g : IdGen) (tripId : String) :
    List DayPlanAgg → List DayPlanAgg × IdGen
  | [] => ([], g)
  | d :: rest =>
    let (cd, g1) := cloneDayPlan now g tripId d
    let (others, g2) := cloneDayPlans now g1 tripId rest
    (cd :: others, g2)

/-- Clone the `trip_destinations` link rows: brand-new id, re-parented,
destination reference and order copied verbatim. -/
def cloneTDs (g : IdGen) (tripId : String) :
    List TripDestinationRow → List TripDestinationRow × IdGen
  | [] => ([], g)
  | r :: rest =>
    let (newId, g1) := genId g
    let (others, g2) := cloneTDs g1 tripId rest
    ({ id := newId, tripId := tripId, destinationId := r.destinationId,
       orderIndex := r.orderIndex } :: others, g2)

/-- The copy-construction phase of `tripService.ClonePublicTrip`: a brand-new
trip id, owner set to the caller, the supplied name, scalar descriptive fields
copied, visibility forced to `private`, status forced to `planning`, and the
whole day-plan / trip-destination subtree cloned under fresh link identities.

`clonePublicTrip` below is the full operation: fetch the source through the
public-only `FindByID` (mapping `ErrRecordNotFound` to NotFound), re-check
that it is public, build the copy, and persist it through
`tripRepository.Create`.  The fire-and-forget goroutine that increments the
source's clone count afterwards is detached from the operation's success path
and is not modelled. -/
def buildClone (now : Nat) (g : IdGen) (userId newTripName : String)
    (originalTrip : TripAgg) : TripAgg × IdGen :=
  let (tripId, g1) := genId g
  let clonedRow : TripRow :=
    { id := tripId, userId := userId, name := newTripName,
      description := originalTrip.row.description,
      travelerCount := originalTrip.row.travelerCount,
      startDate := originalTrip.row.startDate,
      endDate := originalTrip.row.endDate,
      timezone := originalTrip.row.timezone,
      coverImage := originalTrip.row.coverImage,
      heroImage := originalTrip.row.heroImage,
      visibility := "private", status := "planning",
      summary := none, travelerType := originalTrip.row.travelerType,
      likes := 0, cloneCount := 0,
      createdAt := now, updatedAt := now, publishedAt := none }
  let (days, g2) := cloneDayPlans now g1 tripId originalTrip.dayPlans
  let (tds, g3) := cloneTDs g2 tripId originalTrip.tripDestinations
  ({ row := clonedRow, dayPlans := days, tripDestinations := tds }, g3)

/-- The fetch-check-build-persist pipeline of `ClonePublicTrip` proper. -/
def clonePublicTrip (now : Nat) (s : Store) (g : IdGen)
    (publicTripId userId newTripName : String) :
    Except AppError (TripAgg × Store) × IdGen :=
  match publicFindByID s publicTripId with
  | .error .recordNotFound => (.error (.notFound "Public trip"), g)
  | .error e => (.error (.db e), g)
  | .ok originalTrip =>
    if ¬ originalTrip.row.visibility = "public" then
      (.error (.validation "Only public trips can be cloned"), g)
    else
      let (cloned, g3) := buildClone now g userId newTripName originalTrip
      match tripRepoCreate s cloned with
      | (_, some e) => (.error (.db e), g3)
      | (s1, none) => (.ok (cloned, s1), g3)

/-! ## The validating tripService variant
(src/internal/service/trip_service.go) -/

/-- `tripService.validateTrip` (lines 121–135): required name, traveler count
at least 1, required dates, and the start/end order check — which is Go's `>`
on the two date strings, i.e. a lexicographic comparison, so equal dates
pass. -/
def validateTrip (t : TripRow) : Option AppError :=
  if t.name = "" then some (.validation "trip name is required")
  else if t.travelerCount < 1 then some (.validation "traveler count must be at least 1")
  else if t.startDate = "" ∨ t.endDate = "" then
    some (.validation "start and end dates are required")
  else if strGtB t.startDate t.endDate = true then
    some (.validation "start date must be before end date")
  else none

/-- `tripService.CreateTrip` (lines 51–96): set the owner, assign the trip an
id if absent, stamp timestamps, assign identities to the nested subtree (that
file's schema variant nests destinations/dailyPlans/activities; this embedding
assigns over the repository's day-plan subtree), **then** validate, and only
after validation passes persist through `tripRepository.Create`.  A validation
failure therefore returns before anything touches the store. -/
def prepCreate (now : Nat) (g : IdGen) (userId : String) (trip : TripAgg) :
    TripAgg × IdGen :=
  let row0 := { trip.row with userId := userId }
  let (tripId, g1) := if row0.id = "" then genId g else (row0.id, g)
  let row1 :=
    { row0 with
      id := tripId
      createdAt := if row0.createdAt = 0 then now else row0.createdAt
      updatedAt := now }
  let (plans, g2) := fillDayPlanIds now g1 tripId trip.dayPlans
  ({ row := row1, dayPlans := plans, tripDestinations := trip.tripDestinations }, g2)

/-- The create operation proper: validate the prepared trip, then — only after
validation passes — persist it; the store the call leaves behind is paired
with the result. -/
def createTripValidated (now : Nat) (s : Store) (g : IdGen) (userId : String)
    (trip : TripAgg) : (Except AppError TripAgg × Store) × IdGen :=
  let (trip1, g2) := prepCreate now g userId trip
  match validateTrip trip1.row with
  | some e => ((.error e, s), g2)
  | none =>
    match tripRepoCreate s trip1 with
    | (_, some e) => ((.error (.db e), s), g2)
    | (s1, none) => ((.ok trip1, s1), g2)

/-- `tripService.UpdateTrip` (trip_service.go lines 98–115): force the owner,
stamp the updated timestamp, validate, run `tripRepository.Update`, then
re-fetch the trip under ownership.  The result is paired with the store the
call leaves behind (the re-fetch runs after the update committed). -/
def prepUpdate (now : Nat) (userId : String) (trip : TripAgg) : TripAgg :=
  { trip with row := { trip.row with userId := userId, updatedAt := now } }

/-- The update operation proper: validate the prepared trip, then update and
re-fetch. -/
def updateTripValidated (now : Nat) (s : Store) (userId : String) (trip : TripAgg) :
    Except AppError TripAgg × Store :=
  let trip1 := prepUpdate now userId trip
  match validateTrip trip1.row with
  | some e => (.error e, s)
  | none =>
    match tripRepoUpdate s trip1 with
    | (_, some e) => (.error (.db e), s)
    | (s1, none) =>
      match tripFindByID s1 trip1.row.id userId with
      | .ok t2 => (.ok t2, s1)
      | .error e => (.error (.db e), s1)

/-! ## Identifier sets of a trip subtree -/

/-- The identities the clone operation mints anew inside one day plan: the day
plan's own id and the ids of its two kinds of link rows. -/
def dayPlanStructIds (d : DayPlanAgg) : List String :=
  d.row.id :: (d.dayPlanDestinations.map (·.id) ++ d.dayPlanActivities.map (·.id))

/-- The structural identities of a trip aggregate: the trip id, every day
plan's structural ids, and the trip-destination link ids. -/
def tripStructIds (t : TripAgg) : List String :=
  t.row.id :: ((t.dayPlans.map dayPlanStructIds).flatten ++ t.tripDestinations.map (·.id))

/-- The identities a day plan's link rows merely reference (destination and
activity ids of shared, reusable entities). -/
def dayPlanRefIds (d : DayPlanAgg) : List String :=
  d.dayPlanDestinations.map (·.destinationId) ++ d.dayPlanActivities.map (·.activityId)

/-- The referenced identities of a trip aggregate. -/
def tripRefIds (t : TripAgg) : List String :=
  (t.dayPlans.map dayPlanRefIds).flatten ++ t.tripDestinations.map (·.destinationId)

/-- Every identity appearing in a trip's subtree: structural ids plus every
referenced identity (the id universe claim C1 quantifies over). -/
def tripSubtreeIds (t : TripAgg) : List String :=
  tripStructIds t ++ tripRefIds t

/-- Modelled from the spec: a duration "falls inside" a supplied range
`{minDays?, maxDays?}` when it satisfies whichever bounds are present (an
absent bound constrains nothing).  This is the spec-side reading claim C2 is
compared against; `rangeCond`/`durationsMatch` above are the code's. -/
def fallsInsideSpec (d : Int) (r : DurationRange) : Bool :=
  (match r.minDays with
   | some lo => decide (lo ≤ d)
   | none => true) &&
  (match r.maxDays with
   | some hi => decide (d ≤ hi)
   | none => true)

/-! # Claim C4 -/

/-- Fixture: a never-published private trip owned by `u1`. -/
def c4Trip : TripRow :=
  { id := "t1", userId := "u1", name := "Tokyo Week", description := none,
    travelerCount := 2, startDate := "2025-05-01", endDate := "2025-05-07",
    timezone := none, coverImage := none, heroImage := none,
    visibility := "private", status := "planning", summary := none,
    travelerType := "", likes := 0, cloneCount := 0, createdAt := 1, updatedAt := 1,
    publishedAt := none }

/-- Fixture: a store holding only `c4Trip`. -/
def c4Store : Store :=
  { trips := [c4Trip], dayPlans := [], dayPlanDestinations := [],
    dayPlanActivities := [], tripDestinations := [], destinations := [], tripLikes := [] }

/-- **C4** (code bug, evaluated at the failing input): the claim — and spec
§4.3 — say the first transition of a trip's visibility to "public" sets
`published_at`; the live `publicTripRepository.ToggleVisibility` only writes
the `visibility` and `updated_at` columns, so publishing a never-published
private trip for the first time leaves `published_at` unset.  (The stale
variant at trip_repository.go:425–447 does stamp `published_at` when unset;
the wired variant at public_trip_repository.go:243–254 dropped that.) -/
theorem toggleVisibility_first_publish_leaves_publishedAt_unset :
    ((toggleVisibility c4Store 5 "t1" "u1" "public").trips.map
      (fun t => (t.visibility, t.publishedAt))) = [("public", none)] := by decide

/-! # Claim C5 -/

/-- Fixture: Alice's trip. -/
def c5Trip : TripRow :=
  { id := "t1", userId := "alice", name := "Alice trip", description := none,
    travelerCount := 1, startDate := "2025-05-01", endDate := "2025-05-03",
    timezone := none, coverImage := none, heroImage := none,
    visibility := "private", status := "planning", summary := none,
    travelerType := "", likes := 0, cloneCount := 0, createdAt := 1, updatedAt := 1,
    publishedAt := none }

/-- Fixture: Alice's day plan, the only child of her trip. -/
def c5Day : DayPlanRow :=
  { id := "d1", tripId := "t1", date := "2025-05-01", dayNumber := 1, notes := none,
    createdAt := 1, updatedAt := 1 }

/-- Fixture store: Alice's trip with its one day plan. -/
def c5Store : Store :=
  { trips := [c5Trip], dayPlans := [c5Day], dayPlanDestinations := [],
    dayPlanActivities := [], tripDestinations := [], destinations := [], tripLikes := [] }

/-- Fixture: the day plan Bob's payload supplies. -/
def c5BobDay : DayPlanRow :=
  { id := "d9", tripId := "t1", date := "2025-05-02", dayNumber := 1, notes := none,
    createdAt := 0, updatedAt := 0 }

/-- Fixture: the replace payload caller Bob submits for Alice's trip id. -/
def c5Payload : TripAgg :=
  { row :=
      { id := "t1", userId := "bob", name := "Bob payload", description := none,
        travelerCount := 1, startDate := "2025-05-01", endDate := "2025-05-03",
        timezone := none, coverImage := none, heroImage := none,
        visibility := "private", status := "planning", summary := none,
        travelerType := "", likes := 0, cloneCount := 0, createdAt := 0, updatedAt := 0,
        publishedAt := none }
    dayPlans := [{ row := c5BobDay, dayPlanDestinations := [], dayPlanActivities := [] }]
    tripDestinations := [] }

/-- Fixture: an id supply (unused — Bob's payload carries its own child id). -/
def c5Gen : IdGen := { stream := fun _ => "zz", next := 0 }

/-- **C5** (code bug, evaluated at the failing input): the claim — and spec
§4.1/§8 — say a get, update or delete attempt on Alice's trip by Bob yields
NotFound.  Get does; but delete returns success (a silent no-op: GORM reports
no error for a delete matching zero rows), and update returns success while
replacing Alice's children: the scalar update filters on `(id, user_id)` and
matches nothing, yet the child deletes filter on `trip_id` alone, so Alice's
day plan `d1` is destroyed and Bob's `d9` is attached to her trip. -/
theorem ownership_nonowner_update_delete_divergence :
    getTrip c5Store "t1" "bob" = .error (.notFound "Trip") ∧
    deleteTrip c5Store "t1" "bob" = .ok c5Store ∧
    ((updateTrip 9 c5Store c5Gen c5Payload).1.toOption.map
      (fun p => (p.2.trips, p.2.dayPlans.map (fun d => d.id)))) =
      some ([c5Trip], ["d9"]) := by decide

/-! # Claim C6 -/

/-- Fixture: a store with no trips at all. -/
def c6Store : Store :=
  { trips := [], dayPlans := [], dayPlanDestinations := [],
    dayPlanActivities := [], tripDestinations := [], destinations := [], tripLikes := [] }

/-- Fixture: the day plan supplied with the C6 payload. -/
def c6Day : DayPlanRow :=
  { id := "p1", tripId := "t9", date := "2025-05-01", dayNumber := 1, notes := none,
    createdAt := 0, updatedAt := 0 }

/-- Fixture: a replace payload naming the nonexistent trip id `t9`. -/
def c6Payload : TripAgg :=
  { row :=
      { id := "t9", userId := "u1", name := "Fresh trip", description := none,
        travelerCount := 1, startDate := "2025-05-01", endDate := "2025-05-03",
        timezone := none, coverImage := none, heroImage := none,
        visibility := "private", status := "planning", summary := none,
        travelerType := "", likes := 0, cloneCount := 0, createdAt := 0, updatedAt := 0,
        publishedAt := none }
    dayPlans := [{ row := c6Day, dayPlanDestinations := [], dayPlanActivities := [] }]
    tripDestinations := [] }

/-- Fixture: an id supply for the C6 counterexample (unused — the payload's
child carries its own id). -/
def c6Gen : IdGen := { stream := fun _ => "zz", next := 0 }

/-- **C6 counterexample**: the claim says a replace naming a trip id that does
not exist under the caller's ownership is treated as an implicit create, so
that afterwards the trip exists and no error is returned.  On the empty store,
replacing `t9` with a childless payload returns without error yet the `trips`
table is still empty — `Updates` matches zero rows and GORM's `Updates` never
inserts; and replacing `t9` with the day-planned payload is no upsert either:
the orphan day-plan insert violates the `day_plans.trip_id` foreign key, so
the call errors and rolls back instead of creating the trip. -/
theorem updateTrip_missing_trip_not_upserted :
    ((updateTrip 9 c6Store c6Gen { c6Payload with dayPlans := [] }).1.toOption.map
      (fun p => p.2.trips)) = some [] ∧
    (updateTrip 9 c6Store c6Gen c6Payload).1 =
      .error (.db (.foreignKey "day_plans" "t9")) := by decide

/-- A map whose function fixes every element of a list is the identity on that
list. -/
theorem map_self_of_fixed {α : Type} (f : α → α) :
    ∀ (l : List α), (∀ a ∈ l, f a = a) → l.map f = l
  | [], _ => rfl
  | a :: l, h => by
    rw [List.map_cons, h a (List.mem_cons_self a l),
      map_self_of_fixed f l (fun b hb => h b (List.mem_cons_of_mem a hb))]

/-- A successful day-plan insert leaves the `trips` table untouched. -/
theorem insertDayPlanRow_trips {s s1 : Store} {r : DayPlanRow}
    (h : insertDayPlanRow s r = .ok s1) : s1.trips = s.trips := by
  unfold insertDayPlanRow at h
  split at h
  · exact Except.noConfusion h
  · split at h
    · cases h
      rfl
    · exact Except.noConfusion h

/-- A successful day-plan-destination insert leaves the `trips` table
untouched. -/
theorem insertDPDRow_trips {s s1 : Store} {d : String} {r : DayPlanDestinationRow}
    (h : insertDPDRow s d r = .ok s1) : s1.trips = s.trips := by
  unfold insertDPDRow at h
  split at h
  · exact Except.noConfusion h
  · cases h
    rfl

/-- A successful day-plan-activity insert leaves the `trips` table
untouched. -/
theorem insertDPARow_trips {s s1 : Store} {d : String} {r : DayPlanActivityRow}
    (h : insertDPARow s d r = .ok s1) : s1.trips = s.trips := by
  unfold insertDPARow at h
  split at h
  · exact Except.noConfusion h
  · cases h
    rfl

/-- A successful trip-destination insert leaves the `trips` table untouched. -/
theorem insertTDRow_trips {s s1 : Store} {d : String} {r : TripDestinationRow}
    (h : insertTDRow s d r = .ok s1) : s1.trips = s.trips := by
  unfold insertTDRow at h
  split at h
  · exact Except.noConfusion h
  · cases h
    rfl

/-- Successful day-plan-destination inserts leave the `trips` table
untouched. -/
theorem insertDPDRows_trips (d : String) (rs : List DayPlanDestinationRow) :
    ∀ (s s1 : Store), insertDPDRows s d rs = .ok s1 → s1.trips = s.trips := by
  induction rs with
  | nil =>
    intro s s1 h
    cases h
    rfl
  | cons r rest ih =>
    intro s s1 h
    unfold insertDPDRows at h
    rcases hr : insertDPDRow s d r with e | s2
    · rw [hr] at h
      exact Except.noConfusion h
    · rw [hr] at h
      exact (ih s2 s1 h).trans (insertDPDRow_trips hr)

/-- Successful day-plan-activity inserts leave the `trips` table untouched. -/
theorem insertDPARows_trips (d : String) (rs : List DayPlanActivityRow) :
    ∀ (s s1 : Store), insertDPARows s d rs = .ok s1 → s1.trips = s.trips := by
  induction rs with
  | nil =>
    intro s s1 h
    cases h
    rfl
  | cons r rest ih =>
    intro s s1 h
    unfold insertDPARows at h
    rcases hr : insertDPARow s d r with e | s2
    · rw [hr] at h
      exact Except.noConfusion h
    · rw [hr] at h
      exact (ih s2 s1 h).trans (insertDPARow_trips hr)

/-- Successful trip-destination inserts leave the `trips` table untouched. -/
theorem insertTDRows_trips (d : String) (rs : List TripDestinationRow) :
    ∀ (s s1 : Store), insertTDRows s d rs = .ok s1 → s1.trips = s.trips := by
  induction rs with
  | nil =>
    intro s s1 h
    cases h
    rfl
  | cons r rest ih =>
    intro s s1 h
    unfold insertTDRows at h
    rcases hr : insertTDRow s d r with e | s2
    · rw [hr] at h
      exact Except.noConfusion h
    · rw [hr] at h
      exact (ih s2 s1 h).trans (insertTDRow_trips hr)

/-- A successful day-plan-aggregate insert leaves the `trips` table
untouched. -/
theorem insertDayPlanAgg_trips {s s1 : Store} {tid : String} {dp : DayPlanAgg}
    (h : insertDayPlanAgg s tid dp = .ok s1) : s1.trips = s.trips := by
  unfold insertDayPlanAgg at h
  rcases h1 : insertDayPlanRow s { dp.row with tripId := tid } with e | s2
  · rw [h1] at h
    exact Except.noConfusion h
  · rw [h1] at h
    have h' : (match insertDPDRows s2 dp.row.id dp.dayPlanDestinations with
        | .error e => (.error e : Except DBError Store)
        | .ok s3 => insertDPARows s3 dp.row.id dp.dayPlanActivities) = .ok s1 := h
    rcases h2 : insertDPDRows s2 dp.row.id dp.dayPlanDestinations with e | s3
    · rw [h2] at h'
      exact Except.noConfusion h'
    · rw [h2] at h'
      exact ((insertDPARows_trips dp.row.id dp.dayPlanActivities s3 s1 h').trans
        (insertDPDRows_trips dp.row.id dp.dayPlanDestinations s2 s3 h2)).trans
        (insertDayPlanRow_trips h1)

/-- A successful run of the day-plan loop leaves the `trips` table
untouched. -/
theorem insertDayPlanAggs_trips (tid : String) (dps : List DayPlanAgg) :
    ∀ (s s1 : Store), insertDayPlanAggs s tid dps = .ok s1 → s1.trips = s.trips := by
  induction dps with
  | nil =>
    intro s s1 h
    cases h
    rfl
  | cons dp rest ih =>
    intro s s1 h
    unfold insertDayPlanAggs at h
    rcases hr : insertDayPlanAgg s tid dp with e | s2
    · rw [hr] at h
      exact Except.noConfusion h
    · rw [hr] at h
      exact (ih s2 s1 h).trans (insertDayPlanAgg_trips hr)

/-- When no stored trip row carries the payload's id, a successful run of the
`tripRepository.Update` transaction body leaves the `trips` table untouched:
the scalar `Updates` matches zero rows (and GORM inserts nothing), and the
remaining steps only touch child tables. -/
theorem tripUpdateSteps_trips_of_absent {s s1 : Store} {trip : TripAgg}
    (habs : ∀ r ∈ s.trips, ¬ r.id = trip.row.id)
    (h : tripUpdateSteps s trip = .ok s1) : s1.trips = s.trips := by
  have hmap : s.trips.map (fun r =>
      if decide (r.id = trip.row.id) && decide (r.userId = trip.row.userId) then
        applyTripUpdates r trip.row
      else r) = s.trips :=
    map_self_of_fixed _ s.trips (fun r hr => by simp [habs r hr])
  have h' : (match insertDayPlanAggs
        (deleteTripDestinations
          (deleteDayPlansCascade
            { s with trips := s.trips.map (fun r =>
                if decide (r.id = trip.row.id) && decide (r.userId = trip.row.userId) then
                  applyTripUpdates r trip.row
                else r) }
            trip.row.id)
          trip.row.id)
        trip.row.id trip.dayPlans with
      | .error e => (.error e : Except DBError Store)
      | .ok s4 => insertTDRows s4 trip.row.id trip.tripDestinations) = .ok s1 := h
  rcases h2 : insertDayPlanAggs
      (deleteTripDestinations
        (deleteDayPlansCascade
          { s with trips := s.trips.map (fun r =>
              if decide (r.id = trip.row.id) && decide (r.userId = trip.row.userId) then
                applyTripUpdates r trip.row
              else r) }
          trip.row.id)
        trip.row.id)
      trip.row.id trip.dayPlans with e | s4
  · rw [h2] at h'
    exact Except.noConfusion h'
  · rw [h2] at h'
    have e1 : s1.trips = s4.trips :=
      insertTDRows_trips trip.row.id trip.tripDestinations s4 s1 h'
    have e2 : s4.trips = s.trips.map (fun r =>
        if decide (r.id = trip.row.id) && decide (r.userId = trip.row.userId) then
          applyTripUpdates r trip.row
        else r) :=
      insertDayPlanAggs_trips trip.row.id trip.dayPlans _ s4 h2
    exact e1.trans (e2.trans hmap)

/-- When no stored trip row carries the payload's id, `tripRepository.Update`
leaves the `trips` table untouched whether it commits or rolls back. -/
theorem tripRepoUpdate_absent_trips (s : Store) (trip : TripAgg)
    (habs : ∀ r ∈ s.trips, ¬ r.id = trip.row.id) :
    (tripRepoUpdate s trip).1.trips = s.trips := by
  unfold tripRepoUpdate runTx
  rcases h : tripUpdateSteps s trip with e | s2
  · rfl
  · exact tripUpdateSteps_trips_of_absent habs h

/-- **C6 (amended)**: a replace naming a trip id with no stored row is *not* an
upsert.  A childless replace returns without error yet creates nothing; any
call that returns without error leaves the `trips` table unchanged, so the
named trip still does not exist afterwards — the scalar `Updates` matches zero
rows and never inserts.  (A payload carrying day plans does not upsert either:
its orphan child inserts violate the `day_plans.trip_id` foreign key and the
call errors and rolls back, as the counterexample also evaluates.) -/
theorem updateTrip_missing_trip_no_upsert (now : Nat) (s : Store) (g : IdGen)
    (trip : TripAgg) (habs : ∀ r ∈ s.trips, ¬ r.id = trip.row.id) :
    (∀ t1 s1 g1, updateTrip now s g trip = (.ok (t1, s1), g1) →
      s1.trips = s.trips ∧ ∀ r ∈ s1.trips, ¬ r.id = trip.row.id) ∧
    (trip.dayPlans = [] → trip.tripDestinations = [] →
      ∃ t1 s1 g1, updateTrip now s g trip = (.ok (t1, s1), g1) ∧
        s1.trips = s.trips) := by
  constructor
  · intro t1 s1 g1 h
    unfold updateTrip at h
    rcases hfill : fillDayPlanIds now g trip.row.id trip.dayPlans with ⟨plans, g2⟩
    simp only [hfill] at h
    split at h
    all_goals
      first
      | (simp at h
         done)
      | (rename_i s2 heq
         have h2 : s2.trips = s1.trips :=
           congrArg (fun p : Except AppError (TripAgg × Store) × IdGen =>
             match p.1 with
             | .ok q => q.2.trips
             | .error _ => s.trips) h
         have h3 : s2.trips = s.trips := by
           have h4 : (tripRepoUpdate s _).1.trips = s2.trips :=
             congrArg (fun p : Store × Option DBError => p.1.trips) heq
           rw [← h4]
           exact tripRepoUpdate_absent_trips s _ habs
         refine ⟨h2.symm.trans h3, ?_⟩
         intro r hr
         rw [h2.symm.trans h3] at hr
         exact habs r hr)
  · intro hdp htds
    rcases trip with ⟨row, plans, tds⟩
    have hdp' : plans = [] := hdp
    have htds' : tds = [] := htds
    subst hdp' htds'
    have habs' : ∀ r ∈ s.trips, ¬ r.id = row.id := habs
    refine ⟨_, _, _, rfl, ?_⟩
    exact map_self_of_fixed _ s.trips (fun r hr => by simp [habs' r hr])

/-- Witness for the amended C6 statement, at the counterexample's fixtures: on
the empty store no trip id is stored, and any successful replace leaves the
(empty) `trips` table unchanged; a childless replace payload succeeds
outright with the `trips` table unchanged. -/
theorem updateTrip_missing_trip_no_upsert_witness :
    ((∀ r ∈ c6Store.trips, ¬ r.id = c6Payload.row.id) ∧
      ∀ t1 s1 g1, updateTrip 9 c6Store c6Gen c6Payload = (.ok (t1, s1), g1) →
        s1.trips = c6Store.trips ∧ ∀ r ∈ s1.trips, ¬ r.id = c6Payload.row.id) ∧
    (∃ t1 s1 g1,
      updateTrip 9 c6Store c6Gen { c6Payload with dayPlans := [] } =
        (.ok (t1, s1), g1) ∧ s1.trips = c6Store.trips) :=
  ⟨⟨by decide,
    (updateTrip_missing_trip_no_upsert 9 c6Store c6Gen c6Payload (by decide)).1⟩,
   (updateTrip_missing_trip_no_upsert 9 c6Store c6Gen
      { c6Payload with dayPlans := [] } (by decide)).2 rfl rfl⟩

/-! # Claim C2, counterexample -/

/-- Fixture: a public trip of inclusive duration 7 days. -/
def c2Trip : TripRow :=
  { id := "t7", userId := "u1", name := "Week away", description := none,
    travelerCount := 2, startDate := "2025-05-01", endDate := "2025-05-07",
    timezone := none, coverImage := none, heroImage := none,
    visibility := "public", status := "planning", summary := none,
    travelerType := "", likes := 0, cloneCount := 0, createdAt := 1, updatedAt := 1,
    publishedAt := some 1 }

/-- Fixture store for the duration-filter counterexample. -/
def c2Store : Store :=
  { trips := [c2Trip], dayPlans := [], dayPlanDestinations := [],
    dayPlanActivities := [], tripDestinations := [], destinations := [], tripLikes := [] }

/-- Fixture filters: two duration ranges, the second with neither bound. -/
def c2Filters : PublicTripFilters :=
  { query := none, cities := [], durations := [⟨some 10, some 14⟩, ⟨none, none⟩],
    months := [], travelerTypes := [], sort := "featured", page := 1, pageSize := 12 }

/-- **C2 counterexample**: the claim says a public trip is returned exactly
when its duration falls inside at least one supplied range.  The 7-day public
trip falls inside the supplied range `{minDays: none, maxDays: none}` (no bound
constrains it), yet the query returns nothing: `FindAll` builds no SQL
condition for a bound-less range and ORs only the remaining `10 ≤ d ≤ 14`
condition. -/
theorem durationFilter_drops_unbounded_range :
    c2Trip.visibility = "public" ∧
    (⟨none, none⟩ : DurationRange) ∈ c2Filters.durations ∧
    fallsInsideSpec (tripDuration c2Trip) ⟨none, none⟩ = true ∧
    (findAll c2Store c2Filters).1 = [] := by
  refine ⟨rfl, by decide, by decide, by decide⟩

/-- `FindAll` builds no SQL condition for a duration range exactly when the
range carries neither bound. -/
theorem rangeCond_eq_none_iff (d : Int) (r : DurationRange) :
    rangeCond d r = none ↔ r.minDays = none ∧ r.maxDays = none := by
  rcases r with ⟨mn, mx⟩
  cases mn <;> cases mx <;> simp [rangeCond]

/-- The SQL condition `FindAll` builds for a range holds exactly when the
range carries at least one bound and the duration falls inside it in the
spec's sense. -/
theorem rangeCond_eq_some_true_iff (d : Int) (r : DurationRange) :
    rangeCond d r = some true ↔
      ((r.minDays.isSome ∨ r.maxDays.isSome) ∧ fallsInsideSpec d r = true) := by
  rcases r with ⟨mn, mx⟩
  cases mn <;> cases mx <;> simp [rangeCond, fallsInsideSpec]

/-- **C2 (amended)**: with the default first page and a page size no smaller
than the filtered result set, `FindAll` returns a trip exactly when it is
stored and satisfies the base visibility condition plus every supplied filter;
and the code's duration filter accepts a duration exactly when either every
supplied range carries no bound at all (the filter then constrains nothing) or
the duration falls inside at least one range carrying a bound — OR across the
bounded ranges, with bound-less ranges dropped rather than treated as
all-accepting. -/
theorem findAll_duration_or_semantics (s : Store) (f : PublicTripFilters)
    (t : TripRow) (hpage : f.page = 1)
    (hlen : (findAllMatches s f).length ≤ f.pageSize.toNat) :
    (t ∈ (findAll s f).1 ↔ t ∈ s.trips ∧ findAllItemsPred s f t = true) ∧
    (durationsMatch f.durations (tripDuration t) = true ↔
      ((∀ r ∈ f.durations, r.minDays = none ∧ r.maxDays = none) ∨
       ∃ r ∈ f.durations, (r.minDays.isSome ∨ r.maxDays.isSome) ∧
         fallsInsideSpec (tripDuration t) r = true)) := by
  constructor
  · show t ∈ findAllItems s f ↔ _
    unfold findAllItems
    rw [hpage]
    have h0 : (((1 : Int) - 1) * f.pageSize).toNat = 0 := by simp
    rw [h0, List.drop_zero,
      List.take_of_length_le
        (show (sortByB (findAllSortLe f.sort) (findAllMatches s f)).length ≤
            f.pageSize.toNat from by rw [length_sortByB]; exact hlen),
      mem_sortByB]
    unfold findAllMatches
    exact List.mem_filter
  · have hnone := fun r => rangeCond_eq_none_iff (tripDuration t) r
    have hsome := fun r => rangeCond_eq_some_true_iff (tripDuration t) r
    simp only [durationsMatch]
    rcases hc : f.durations.filterMap (rangeCond (tripDuration t)) with _ | ⟨b, bs⟩
    · constructor
      · intro _
        left
        intro r hr
        exact (hnone r).mp (List.filterMap_eq_nil_iff.mp hc r hr)
      · intro _
        rfl
    · constructor
      · intro hany
        have hany' : (b :: bs).any id = true := hany
        obtain ⟨x, hx, hid⟩ := List.any_eq_true.mp hany'
        have hx' : x ∈ f.durations.filterMap (rangeCond (tripDuration t)) := by
          rw [hc]
          exact hx
        obtain ⟨r, hr, hrc⟩ := List.mem_filterMap.mp hx'
        right
        have hxt : x = true := hid
        rw [hxt] at hrc
        exact ⟨r, hr, (hsome r).mp hrc⟩
      · intro h
        rcases h with hall | ⟨r, hr, hbound, hfall⟩
        · exfalso
          have hnil : f.durations.filterMap (rangeCond (tripDuration t)) = [] :=
            List.filterMap_eq_nil_iff.mpr (fun r hr => (hnone r).mpr (hall r hr))
          rw [hc] at hnil
          exact List.noConfusion hnil
        · have hmem : true ∈ f.durations.filterMap (rangeCond (tripDuration t)) :=
            List.mem_filterMap.mpr ⟨r, hr, (hsome r).mpr ⟨hbound, hfall⟩⟩
          rw [hc] at hmem
          exact List.any_eq_true.mpr ⟨true, hmem, rfl⟩

/-- Fixture: a public trip of inclusive duration 2 days. -/
def c2wDur2 : TripRow :=
  { c2Trip with id := "w2", endDate := "2025-05-02" }

/-- Fixture: a public trip of inclusive duration 12 days. -/
def c2wDur12 : TripRow :=
  { c2Trip with id := "w12", endDate := "2025-05-12" }

/-- Fixture: a public trip of inclusive duration 7 days. -/
def c2wDur7 : TripRow :=
  { c2Trip with id := "w7" }

/-- Fixture store: public trips of durations 2, 12 and 7. -/
def c2wStore : Store :=
  { trips := [c2wDur2, c2wDur12, c2wDur7], dayPlans := [], dayPlanDestinations := [],
    dayPlanActivities := [], tripDestinations := [], destinations := [], tripLikes := [] }

/-- Fixture filters: the two bounded ranges of the claim's instance. -/
def c2wFilters : PublicTripFilters :=
  { query := none, cities := [], durations := [⟨some 1, some 3⟩, ⟨some 10, some 14⟩],
    months := [], travelerTypes := [], sort := "featured", page := 1, pageSize := 12 }

/-- Witness for the amended C2 statement: with ranges `[{1,3},{10,14}]` the
query returns the trips of durations 2 and 12 and excludes the trip of
duration 7. -/
theorem findAll_duration_or_semantics_witness :
    c2wDur2 ∈ (findAll c2wStore c2wFilters).1 ∧
    c2wDur12 ∈ (findAll c2wStore c2wFilters).1 ∧
    ¬ c2wDur7 ∈ (findAll c2wStore c2wFilters).1 ∧
    fallsInsideSpec (tripDuration c2wDur2) ⟨some 1, some 3⟩ = true ∧
    fallsInsideSpec (tripDuration c2wDur12) ⟨some 10, some 14⟩ = true :=
  ⟨((findAll_duration_or_semantics c2wStore c2wFilters c2wDur2 rfl (by decide)).1).mpr
      (by decide),
   ((findAll_duration_or_semantics c2wStore c2wFilters c2wDur12 rfl (by decide)).1).mpr
      (by decide),
   fun h => absurd
      (((findAll_duration_or_semantics c2wStore c2wFilters c2wDur7 rfl (by decide)).1).mp h).2
      (by decide),
   by decide, by decide⟩

/-! # Claim C3 -/

/-- `find?` skips a prefix none of whose elements satisfies the predicate. -/
theorem find?_append_none {α : Type} {p : α → Bool} {l1 : List α}
    (h : l1.find? p = none) (l2 : List α) :
    (l1 ++ l2).find? p = l2.find? p := by
  induction l1 with
  | nil => rfl
  | cons a l1 ih =>
    by_cases hp : p a = true
    · rw [List.find?_cons_of_pos _ hp] at h
      exact Option.noConfusion h
    · rw [List.find?_cons_of_neg _ hp] at h
      rw [List.cons_append, List.find?_cons_of_neg _ hp]
      exact ih h

/-- Any two members of a list of length at most one coincide. -/
theorem eq_of_mem_of_length_le_one {α : Type} :
    ∀ {xs : List α}, xs.length ≤ 1 → ∀ a ∈ xs, ∀ b ∈ xs, a = b := by
  intro xs h a ha b hb
  rcases xs with _ | ⟨x, _ | ⟨y, rest⟩⟩
  · exact absurd ha (List.not_mem_nil a)
  · rw [List.mem_singleton] at ha hb
    rw [ha, hb]
  · exfalso
    simp only [List.length_cons] at h
    omega

/-- `find?` by id commutes with an id-preserving row map. -/
theorem trips_find?_map (f : TripRow → TripRow) (hid : ∀ x, (f x).id = x.id)
    (l : List TripRow) (tid : String) :
    (l.map f).find? (fun x => decide (x.id = tid)) =
      (l.find? (fun x => decide (x.id = tid))).map f := by
  induction l with
  | nil => rfl
  | cons a l ih =>
    rw [List.map_cons]
    by_cases hp : a.id = tid
    · rw [List.find?_cons_of_pos _ (by simp [hid a, hp]),
        List.find?_cons_of_pos _ (by simp [hp])]
      rfl
    · rw [List.find?_cons_of_neg _ (by simp [hid a, hp]),
        List.find?_cons_of_neg _ (by simp [hp]), ih]

/-- `find?` by trip id through the counter increment. -/
theorem find?_incLikes (X : Store) (tid : String) :
    (incLikes X tid).trips.find? (fun x => decide (x.id = tid)) =
      (X.trips.find? (fun x => decide (x.id = tid))).map
        (fun x => if decide (x.id = tid) then { x with likes := x.likes + 1 } else x) :=
  trips_find?_map _ (fun x => by by_cases hx : x.id = tid <;> simp [hx]) X.trips tid

/-- `find?` by trip id through the clamped counter decrement. -/
theorem find?_decLikes (X : Store) (tid : String) :
    (decLikes X tid).trips.find? (fun x => decide (x.id = tid)) =
      (X.trips.find? (fun x => decide (x.id = tid))).map
        (fun x => if decide (x.id = tid) && decide (0 < x.likes) then
            { x with likes := x.likes - 1 }
          else x) :=
  trips_find?_map _
    (fun x => by
      by_cases hx : x.id = tid <;> by_cases h0 : (0 : Int) < x.likes <;> simp [hx, h0])
    X.trips tid

/-- Incrementing after a clamped decrement restores every counter that was
positive (the hypothesis of the like invariant while a like row exists). -/
theorem incLikes_decLikes_trips (s : Store) (tid : String)
    (h : ∀ r ∈ s.trips, r.id = tid → 0 < r.likes) :
    (incLikes (decLikes s tid) tid).trips = s.trips := by
  show (s.trips.map _).map _ = s.trips
  rw [List.map_map]
  apply map_self_of_fixed
  intro r hr
  by_cases hid : r.id = tid
  · have h0 : (0 : Int) < r.likes := h r hr hid
    have harith : r.likes - 1 + 1 = r.likes := by omega
    simp [Function.comp, hid, h0, harith]
    rw [← hid]
  · simp [Function.comp, hid]

/-- A clamped decrement after an increment restores every counter that was
nonnegative. -/
theorem decLikes_incLikes_trips (s : Store) (tid : String)
    (h : ∀ r ∈ s.trips, r.id = tid → 0 ≤ r.likes) :
    (decLikes (incLikes s tid) tid).trips = s.trips := by
  show (s.trips.map _).map _ = s.trips
  rw [List.map_map]
  apply map_self_of_fixed
  intro r hr
  by_cases hid : r.id = tid
  · have h0 : (0 : Int) ≤ r.likes := h r hr hid
    have hlt : (0 : Int) < r.likes + 1 := by omega
    have harith : r.likes + 1 - 1 = r.likes := by omega
    simp [Function.comp, hid, hlt, harith]
    rw [← hid]
  · simp [Function.comp, hid]

/-- Evaluation of `ToggleLike`, like branch of the check-then-act: no like row
for the pair and the trip row present — insert a like row under the generated
id, increment, and return the incremented counter. -/
theorem toggleLike_eval_insert (s : Store) (g : IdGen) (u t : String) (tr : TripRow)
    (hf : s.tripLikes.find?
      (fun r => decide (r.userId = u) && decide (r.tripId = t)) = none)
    (hft : s.trips.find? (fun x => decide (x.id = t)) = some tr) :
    toggleLike s g u t =
      (.ok (true, tr.likes + 1),
       incLikes { s with tripLikes :=
         s.tripLikes ++ [{ id := g.stream g.next, userId := u, tripId := t }] } t,
       { g with next := g.next + 1 }) := by
  have htr : tr.id = t := by simpa using List.find?_some hft
  have hfind2 : (incLikes { s with tripLikes :=
      s.tripLikes ++ [{ id := g.stream g.next, userId := u, tripId := t }] } t).trips.find?
        (fun x => decide (x.id = t)) = some { tr with likes := tr.likes + 1 } := by
    rw [find?_incLikes]
    show (s.trips.find? _).map _ = _
    rw [hft]
    simp [htr]
  simp only [toggleLike, hf, genId]
  simp only [hfind2]

/-- Evaluation of `ToggleLike`: no like row for the pair and no trip row — the
post-mutation read fails and the transaction rolls back. -/
theorem toggleLike_eval_insert_missing (s : Store) (g : IdGen) (u t : String)
    (hf : s.tripLikes.find?
      (fun r => decide (r.userId = u) && decide (r.tripId = t)) = none)
    (hft : s.trips.find? (fun x => decide (x.id = t)) = none) :
    toggleLike s g u t = (.error .recordNotFound, s, { g with next := g.next + 1 }) := by
  have hfind2 : (incLikes { s with tripLikes :=
      s.tripLikes ++ [{ id := g.stream g.next, userId := u, tripId := t }] } t).trips.find?
        (fun x => decide (x.id = t)) = none := by
    rw [find?_incLikes]
    show (s.trips.find? _).map _ = _
    rw [hft]
    rfl
  simp only [toggleLike, hf, genId]
  simp only [hfind2]

/-- Evaluation of `ToggleLike`, unlike branch: a like row found and the trip
row present — delete the row by its id, apply the clamped decrement, and
return the decremented counter. -/
theorem toggleLike_eval_delete (s : Store) (g : IdGen) (u t : String)
    (l : TripLikeRow) (tr : TripRow)
    (hf : s.tripLikes.find?
      (fun r => decide (r.userId = u) && decide (r.tripId = t)) = some l)
    (hft : s.trips.find? (fun x => decide (x.id = t)) = some tr) :
    toggleLike s g u t =
      (.ok (false, if 0 < tr.likes then tr.likes - 1 else tr.likes),
       decLikes { s with tripLikes :=
         s.tripLikes.filter (fun r => !decide (r.id = l.id)) } t,
       g) := by
  have htr : tr.id = t := by simpa using List.find?_some hft
  have hfind2 :
      (decLikes
        { s with tripLikes := s.tripLikes.filter (fun r => !decide (r.id = l.id)) }
        t).trips.find? (fun x => decide (x.id = t)) =
      some (if 0 < tr.likes then { tr with likes := tr.likes - 1 } else tr) := by
    rw [find?_decLikes]
    show (s.trips.find? _).map _ = _
    rw [hft]
    by_cases h0 : (0 : Int) < tr.likes <;> simp [htr, h0]
  simp only [toggleLike, hf]
  simp only [hfind2]
  by_cases h0 : (0 : Int) < tr.likes <;> simp [h0]

/-- Evaluation of `ToggleLike`, unlike branch with no trip row: the
post-mutation read fails and the transaction rolls back. -/
theorem toggleLike_eval_delete_missing (s : Store) (g : IdGen) (u t : String)
    (l : TripLikeRow)
    (hf : s.tripLikes.find?
      (fun r => decide (r.userId = u) && decide (r.tripId = t)) = some l)
    (hft : s.trips.find? (fun x => decide (x.id = t)) = none) :
    toggleLike s g u t = (.error .recordNotFound, s, g) := by
  have hfind2 :
      (decLikes
        { s with tripLikes := s.tripLikes.filter (fun r => !decide (r.id = l.id)) }
        t).trips.find? (fun x => decide (x.id = t)) = none := by
    rw [find?_decLikes]
    show (s.trips.find? _).map _ = _
    rw [hft]
    rfl
  simp only [toggleLike, hf]
  simp only [hfind2]

/-- The insert branch of `ToggleLike`, read off field by field. -/
theorem toggleLike_insert_fields (s : Store) (g : IdGen) (u t : String) (tr : TripRow)
    (hf : s.tripLikes.find?
      (fun r => decide (r.userId = u) && decide (r.tripId = t)) = none)
    (hft : s.trips.find? (fun x => decide (x.id = t)) = some tr) :
    (toggleLike s g u t).1 = .ok (true, tr.likes + 1) ∧
    (toggleLike s g u t).2.1.trips = (incLikes s t).trips ∧
    (toggleLike s g u t).2.1.tripLikes =
      s.tripLikes ++ [{ id := g.stream g.next, userId := u, tripId := t }] ∧
    (toggleLike s g u t).2.2 = { g with next := g.next + 1 } := by
  rw [toggleLike_eval_insert s g u t tr hf hft]
  exact ⟨rfl, rfl, rfl, rfl⟩

/-- The delete branch of `ToggleLike`, read off field by field. -/
theorem toggleLike_delete_fields (s : Store) (g : IdGen) (u t : String)
    (l : TripLikeRow) (tr : TripRow)
    (hf : s.tripLikes.find?
      (fun r => decide (r.userId = u) && decide (r.tripId = t)) = some l)
    (hft : s.trips.find? (fun x => decide (x.id = t)) = some tr) :
    (toggleLike s g u t).1 = .ok (false, if 0 < tr.likes then tr.likes - 1 else tr.likes) ∧
    (toggleLike s g u t).2.1.trips = (decLikes s t).trips ∧
    (toggleLike s g u t).2.1.tripLikes =
      s.tripLikes.filter (fun r => !decide (r.id = l.id)) ∧
    (toggleLike s g u t).2.2 = g := by
  rw [toggleLike_eval_delete s g u t l tr hf hft]
  exact ⟨rfl, rfl, rfl, rfl⟩

/-- The counter increment preserves nonnegative counters. -/
theorem incLikes_nonneg (X : Store) (tid : String) (h : ∀ r ∈ X.trips, 0 ≤ r.likes) :
    ∀ r ∈ (incLikes X tid).trips, 0 ≤ r.likes := by
  intro r hr
  obtain ⟨r0, hr0, rfl⟩ := List.mem_map.mp hr
  have h0 := h r0 hr0
  by_cases hx : r0.id = tid
  · simp [hx]
    omega
  · simp [hx]
    omega

/-- The clamped counter decrement preserves nonnegative counters. -/
theorem decLikes_nonneg (X : Store) (tid : String) (h : ∀ r ∈ X.trips, 0 ≤ r.likes) :
    ∀ r ∈ (decLikes X tid).trips, 0 ≤ r.likes := by
  intro r hr
  obtain ⟨r0, hr0, rfl⟩ := List.mem_map.mp hr
  have h0 := h r0 hr0
  by_cases hx : r0.id = tid
  · by_cases hl : (0 : Int) < r0.likes
    · simp [hx, hl]
      omega
    · simp [hx, hl]
      omega
  · simp [hx]
    omega

/-- One toggle preserves nonnegative counters across the whole `trips`
table. -/
theorem toggleLike_nonneg (s : Store) (g : IdGen) (u t : String)
    (h : ∀ r ∈ s.trips, 0 ≤ r.likes) :
    ∀ r ∈ (toggleLike s g u t).2.1.trips, 0 ≤ r.likes := by
  rcases hf : s.tripLikes.find?
      (fun r => decide (r.userId = u) && decide (r.tripId = t)) with _ | l
  · rcases hft : s.trips.find? (fun x => decide (x.id = t)) with _ | tr
    · rw [toggleLike_eval_insert_missing s g u t hf hft]
      exact h
    · rw [(toggleLike_insert_fields s g u t tr hf hft).2.1]
      exact incLikes_nonneg s t h
  · rcases hft : s.trips.find? (fun x => decide (x.id = t)) with _ | tr
    · rw [toggleLike_eval_delete_missing s g u t l hf hft]
      exact h
    · rw [(toggleLike_delete_fields s g u t l tr hf hft).2.1]
      exact decLikes_nonneg s t h

/-- No sequence of toggles drives any like counter negative, starting from
nonnegative counters. -/
theorem runToggles_nonneg (ops : List (String × String)) :
    ∀ (s : Store) (g : IdGen), (∀ r ∈ s.trips, 0 ≤ r.likes) →
      ∀ r ∈ (runToggles s g ops).trips, 0 ≤ r.likes := by
  induction ops with
  | nil =>
    intro s g h
    exact h
  | cons p rest ih =>
    intro s g h
    rcases p with ⟨u, t⟩
    exact ih (toggleLike s g u t).2.1 (toggleLike s g u t).2.2 (toggleLike_nonneg s g u t h)

/-- Fixture: a trip whose stored counter is zero while a like row for the pair
(`u1`, `t1`) exists — a state a replace can produce, since `applyTripUpdates`
can overwrite `likes` without touching `trip_likes`. -/
def c3Trip : TripRow :=
  { id := "t1", userId := "alice", name := "Liked trip", description := none,
    travelerCount := 1, startDate := "2025-05-01", endDate := "2025-05-03",
    timezone := none, coverImage := none, heroImage := none,
    visibility := "public", status := "planning", summary := none,
    travelerType := "", likes := 0, cloneCount := 0, createdAt := 1, updatedAt := 1,
    publishedAt := some 1 }

/-- Fixture: the existing like row. -/
def c3Like : TripLikeRow := { id := "L1", userId := "u1", tripId := "t1" }

/-- Fixture store: like row present, counter zero. -/
def c3Store : Store :=
  { trips := [c3Trip], dayPlans := [], dayPlanDestinations := [],
    dayPlanActivities := [], tripDestinations := [], destinations := [],
    tripLikes := [c3Like] }

/-- Fixture: an id supply for like rows. -/
def c3Gen : IdGen := { stream := fun n => "lk" ++ n.repr, next := 0 }

/-- **C3 counterexample**: the claim says a double toggle restores the
original counter value from every starting state.  From the state "like row
present, counter zero", the first toggle deletes the row but the clamped
decrement is a no-op at zero, and the second toggle re-inserts and increments:
the counter ends at 1, not at the original 0. -/
theorem toggleLike_double_toggle_counter_not_restored :
    hasLike c3Store "u1" "t1" = true ∧
    likesOf c3Store "t1" = 0 ∧
    hasLike (runToggles c3Store c3Gen [("u1", "t1"), ("u1", "t1")]) "u1" "t1" = true ∧
    likesOf (runToggles c3Store c3Gen [("u1", "t1"), ("u1", "t1")]) "t1" = 1 := by
  decide

/-- **C3 (amended)**: when the starting store is consistent — at most one like
row per (user, trip) pair, generated like-row ids fresh, the trip's counter
nonnegative and positive whenever the pair's like row exists — a double toggle
restores both the liked state and the counter; each successful call returns
`liked` flipped and the counter read back from its own post-state; and no
toggle sequence ever drives a counter negative from nonnegative counters.
(The re-inserted like row carries a fresh generated id, so the row *set* is
restored only up to the row identity.) -/
theorem toggleLike_double_toggle (s : Store) (g : IdGen) (u t : String)
    (hpair : (s.tripLikes.filter
      (fun r => decide (r.userId = u) && decide (r.tripId = t))).length ≤ 1)
    (hfresh : ∀ n, n < g.next + 2 → ¬ g.stream n ∈ s.tripLikes.map (fun r => r.id))
    (hnonneg : ∀ r ∈ s.trips, r.id = t → 0 ≤ r.likes)
    (hpos : hasLike s u t = true → ∀ r ∈ s.trips, r.id = t → 0 < r.likes) :
    (hasLike (runToggles s g [(u, t), (u, t)]) u t = hasLike s u t ∧
     likesOf (runToggles s g [(u, t), (u, t)]) t = likesOf s t) ∧
    (∀ b n s1 g1, toggleLike s g u t = (.ok (b, n), s1, g1) →
      b = !hasLike s u t ∧ n = likesOf s1 t) ∧
    (∀ (ops : List (String × String)) (s0 : Store) (g0 : IdGen),
      (∀ r ∈ s0.trips, 0 ≤ r.likes) →
      ∀ r ∈ (runToggles s0 g0 ops).trips, 0 ≤ r.likes) := by
  have hstore0 : runToggles s g [(u, t), (u, t)] =
      (toggleLike (toggleLike s g u t).2.1 (toggleLike s g u t).2.2 u t).2.1 := rfl
  refine ⟨?_, ?_, fun ops s0 g0 h0 => runToggles_nonneg ops s0 g0 h0⟩
  · rcases hf : s.tripLikes.find?
        (fun r => decide (r.userId = u) && decide (r.tripId = t)) with _ | l
    · rcases hft : s.trips.find? (fun x => decide (x.id = t)) with _ | tr
      · have e1 := toggleLike_eval_insert_missing s g u t hf hft
        have e2 := toggleLike_eval_insert_missing s { g with next := g.next + 1 } u t hf hft
        have hrun : runToggles s g [(u, t), (u, t)] = s := by
          rw [hstore0]
          simp only [e1, e2]
        rw [hrun]
        exact ⟨rfl, rfl⟩
      · have htr : tr.id = t := by simpa using List.find?_some hft
        obtain ⟨e1r, e1t, e1l, e1g⟩ := toggleLike_insert_fields s g u t tr hf hft
        have hf2 : (toggleLike s g u t).2.1.tripLikes.find?
            (fun r => decide (r.userId = u) && decide (r.tripId = t)) =
            some { id := g.stream g.next, userId := u, tripId := t } := by
          rw [e1l, find?_append_none hf, List.find?_cons_of_pos _ (by simp)]
        have hft2 : (toggleLike s g u t).2.1.trips.find?
            (fun x => decide (x.id = t)) = some { tr with likes := tr.likes + 1 } := by
          rw [e1t, find?_incLikes, hft]
          simp [htr]
        obtain ⟨e2r, e2t, e2l, e2g⟩ :=
          toggleLike_delete_fields (toggleLike s g u t).2.1 (toggleLike s g u t).2.2 u t
            { id := g.stream g.next, userId := u, tripId := t }
            { tr with likes := tr.likes + 1 } hf2 hft2
        constructor
        · show hasLike
              (toggleLike (toggleLike s g u t).2.1 (toggleLike s g u t).2.2 u t).2.1 u t =
            hasLike s u t
          unfold hasLike
          rw [e2l, e1l]
          rw [show ({ id := g.stream g.next, userId := u, tripId := t } : TripLikeRow).id =
            g.stream g.next from rfl]
          rw [List.filter_append]
          have hkeep : s.tripLikes.filter (fun r => !decide (r.id = g.stream g.next)) =
              s.tripLikes :=
            List.filter_eq_self.mpr (fun r hr => by
              simp only [Bool.not_eq_true', decide_eq_false_iff_not]
              intro he
              exact hfresh g.next (by omega)
                (he ▸ List.mem_map_of_mem (fun x => x.id) hr))
          have hdrop : [({ id := g.stream g.next, userId := u, tripId := t } : TripLikeRow)].filter
              (fun r => !decide (r.id = g.stream g.next)) = [] := by simp
          rw [hkeep, hdrop, List.append_nil]
        · show likesOf
              (toggleLike (toggleLike s g u t).2.1 (toggleLike s g u t).2.2 u t).2.1 t =
            likesOf s t
          unfold likesOf
          rw [e2t]
          have htrips : (decLikes (toggleLike s g u t).2.1 t).trips = s.trips := by
            show (toggleLike s g u t).2.1.trips.map _ = s.trips
            rw [e1t]
            exact decLikes_incLikes_trips s t hnonneg
          rw [htrips]
    · have hpl := List.find?_some hf
      have hlm := List.mem_of_find?_eq_some hf
      have hlike : hasLike s u t = true := by
        unfold hasLike
        exact List.any_eq_true.mpr ⟨l, hlm, hpl⟩
      rcases hft : s.trips.find? (fun x => decide (x.id = t)) with _ | tr
      · have e1 := toggleLike_eval_delete_missing s g u t l hf hft
        have hrun : runToggles s g [(u, t), (u, t)] = s := by
          rw [hstore0]
          simp only [e1]
        rw [hrun]
        exact ⟨rfl, rfl⟩
      · have hpos' := hpos hlike
        have htr : tr.id = t := by simpa using List.find?_some hft
        have htrpos : (0 : Int) < tr.likes := hpos' tr (List.mem_of_find?_eq_some hft) htr
        obtain ⟨e1r, e1t, e1l, e1g⟩ := toggleLike_delete_fields s g u t l tr hf hft
        have hf2 : (toggleLike s g u t).2.1.tripLikes.find?
            (fun r => decide (r.userId = u) && decide (r.tripId = t)) = none := by
          rw [e1l]
          apply List.find?_eq_none.mpr
          intro r hr hpr
          have hr' := List.mem_filter.mp hr
          have hrid : ¬ r.id = l.id := by
            have h2 := hr'.2
            simp only [Bool.not_eq_true', decide_eq_false_iff_not] at h2
            exact h2
          have hl_mem : l ∈ s.tripLikes.filter
              (fun r => decide (r.userId = u) && decide (r.tripId = t)) :=
            List.mem_filter.mpr ⟨hlm, hpl⟩
          have hr_mem : r ∈ s.tripLikes.filter
              (fun r => decide (r.userId = u) && decide (r.tripId = t)) :=
            List.mem_filter.mpr ⟨hr'.1, hpr⟩
          exact hrid (congrArg TripLikeRow.id
            (eq_of_mem_of_length_le_one hpair r hr_mem l hl_mem))
        have hft2 : (toggleLike s g u t).2.1.trips.find?
            (fun x => decide (x.id = t)) = some { tr with likes := tr.likes - 1 } := by
          rw [e1t, find?_decLikes, hft]
          simp [htr, htrpos]
        obtain ⟨e2r, e2t, e2l, e2g⟩ :=
          toggleLike_insert_fields (toggleLike s g u t).2.1 (toggleLike s g u t).2.2 u t
            { tr with likes := tr.likes - 1 } hf2 hft2
        constructor
        · show hasLike
              (toggleLike (toggleLike s g u t).2.1 (toggleLike s g u t).2.2 u t).2.1 u t =
            hasLike s u t
          rw [hlike]
          unfold hasLike
          rw [e2l]
          apply List.any_eq_true.mpr
          exact ⟨_, List.mem_append_right _ (List.mem_singleton_self _), by simp⟩
        · show likesOf
              (toggleLike (toggleLike s g u t).2.1 (toggleLike s g u t).2.2 u t).2.1 t =
            likesOf s t
          unfold likesOf
          rw [e2t]
          have htrips : (incLikes (toggleLike s g u t).2.1 t).trips = s.trips := by
            show (toggleLike s g u t).2.1.trips.map _ = s.trips
            rw [e1t]
            exact incLikes_decLikes_trips s t hpos'
          rw [htrips]
  · intro b n s1 g1 h
    rcases hf : s.tripLikes.find?
        (fun r => decide (r.userId = u) && decide (r.tripId = t)) with _ | l
    · rcases hft : s.trips.find? (fun x => decide (x.id = t)) with _ | tr
      · rw [toggleLike_eval_insert_missing s g u t hf hft] at h
        simp at h
      · have htr : tr.id = t := by simpa using List.find?_some hft
        rw [toggleLike_eval_insert s g u t tr hf hft] at h
        simp only [Prod.mk.injEq, Except.ok.injEq] at h
        obtain ⟨⟨hb, hn⟩, hs1, hg1⟩ := h
        subst hb
        subst hn
        subst hs1
        have hML : hasLike s u t = false := by
          unfold hasLike
          exact List.any_eq_false.mpr (List.find?_eq_none.mp hf)
        constructor
        · rw [hML]
          rfl
        · have hx : (incLikes { s with tripLikes := s.tripLikes ++ [{ id := g.stream g.next, userId := u, tripId := t }] } t).trips.find? (fun x => decide (x.id = t)) = some { tr with likes := tr.likes + 1 } := by
            rw [find?_incLikes]
            show (s.trips.find? _).map _ = _
            rw [hft]
            simp [htr]
          unfold likesOf
          rw [hx]
    · have hpl := List.find?_some hf
      have hlm := List.mem_of_find?_eq_some hf
      have hlike : hasLike s u t = true := by
        unfold hasLike
        exact List.any_eq_true.mpr ⟨l, hlm, hpl⟩
      rcases hft : s.trips.find? (fun x => decide (x.id = t)) with _ | tr
      · rw [toggleLike_eval_delete_missing s g u t l hf hft] at h
        simp at h
      · have htr : tr.id = t := by simpa using List.find?_some hft
        rw [toggleLike_eval_delete s g u t l tr hf hft] at h
        simp only [Prod.mk.injEq, Except.ok.injEq] at h
        obtain ⟨⟨hb, hn⟩, hs1, hg1⟩ := h
        subst hb
        subst hn
        subst hs1
        constructor
        · rw [hlike]
          rfl
        · have hx : (decLikes { s with tripLikes := s.tripLikes.filter (fun r => !decide (r.id = l.id)) } t).trips.find? (fun x => decide (x.id = t)) = some (if 0 < tr.likes then { tr with likes := tr.likes - 1 } else tr) := by
            rw [find?_decLikes]
            show (s.trips.find? _).map _ = _
            rw [hft]
            by_cases h0 : (0 : Int) < tr.likes <;> simp [htr, h0]
          unfold likesOf
          rw [hx]
          by_cases h0 : (0 : Int) < tr.likes <;> simp [h0]

/-- Fixture: the consistent variant of the like fixture — counter 1 with the
one like row present. -/
def c3wStore : Store :=
  { trips := [{ c3Trip with likes := 1 }], dayPlans := [], dayPlanDestinations := [],
    dayPlanActivities := [], tripDestinations := [], destinations := [],
    tripLikes := [c3Like] }

/-- Witness for the amended C3 statement: from the consistent fixture, the
double toggle restores both the liked state and the counter. -/
theorem toggleLike_double_toggle_witness :
    hasLike (runToggles c3wStore c3Gen [("u1", "t1"), ("u1", "t1")]) "u1" "t1" =
      hasLike c3wStore "u1" "t1" ∧
    likesOf (runToggles c3wStore c3Gen [("u1", "t1"), ("u1", "t1")]) "t1" =
      likesOf c3wStore "t1" :=
  (toggleLike_double_toggle c3wStore c3Gen "u1" "t1" (by decide) (by decide)
    (by decide) (by decide)).1

/-! # Claim C9 -/

/-- **C9**: replace atomicity.  `tripRepository.Update` runs its scalar
update, child deletes and child re-inserts inside one transaction; whenever
the transaction reports an error, the store the caller sees — in particular
every class of child row of the targeted trip — is exactly the pre-call
store. -/
theorem tripRepoUpdate_rollback_preserves_children :
    ∀ (s : Store) (trip : TripAgg) (e : DBError),
      (tripRepoUpdate s trip).2 = some e →
      (tripRepoUpdate s trip).1.dayPlans.filter (fun r => decide (r.tripId = trip.row.id)) =
          s.dayPlans.filter (fun r => decide (r.tripId = trip.row.id)) ∧
        (tripRepoUpdate s trip).1.dayPlanDestinations = s.dayPlanDestinations ∧
        (tripRepoUpdate s trip).1.dayPlanActivities = s.dayPlanActivities ∧
        (tripRepoUpdate s trip).1.tripDestinations.filter
            (fun r => decide (r.tripId = trip.row.id)) =
          s.tripDestinations.filter (fun r => decide (r.tripId = trip.row.id)) ∧
        (tripRepoUpdate s trip).1 = s := by
  intro s trip e h
  unfold tripRepoUpdate runTx at h ⊢
  cases hs : tripUpdateSteps s trip with
  | ok s1 => rw [hs] at h; exact absurd h (by simp)
  | error e1 => exact ⟨rfl, rfl, rfl, rfl, rfl⟩

/-- Fixture: Alice's store for the atomicity witness (trip `t1` with one
existing day plan `d1`). -/
def c9Store : Store :=
  { trips := [c5Trip], dayPlans := [c5Day], dayPlanDestinations := [],
    dayPlanActivities := [], tripDestinations := [], destinations := [], tripLikes := [] }

/-- Fixture: first of the two colliding day plans of the C9 witness. -/
def c9DayA : DayPlanRow :=
  { id := "p", tripId := "t1", date := "2025-05-01", dayNumber := 1, notes := none,
    createdAt := 0, updatedAt := 0 }

/-- Fixture: second colliding day plan (same primary key `p`). -/
def c9DayB : DayPlanRow :=
  { id := "p", tripId := "t1", date := "2025-05-02", dayNumber := 2, notes := none,
    createdAt := 0, updatedAt := 0 }

/-- Fixture: a replace payload whose two day plans collide on the primary key
`p`, so the second child insert fails after the old children were already
deleted inside the transaction. -/
def c9Payload : TripAgg :=
  { row := { c5Trip with name := "Edited", updatedAt := 9 }
    dayPlans :=
      [{ row := c9DayA, dayPlanDestinations := [], dayPlanActivities := [] },
       { row := c9DayB, dayPlanDestinations := [], dayPlanActivities := [] }]
    tripDestinations := [] }

/-- Witness for C9: the colliding payload makes the transaction fail midway
(duplicate key on `day_plans`), and the trip's pre-call children survive. -/
theorem tripRepoUpdate_rollback_preserves_children_witness :
    (tripRepoUpdate c9Store c9Payload).2 = some (.duplicateKey "day_plans" "p") ∧
    (tripRepoUpdate c9Store c9Payload).1.dayPlans.filter
        (fun r => decide (r.tripId = c9Payload.row.id)) =
      c9Store.dayPlans.filter (fun r => decide (r.tripId = c9Payload.row.id)) :=
  ⟨by decide,
   (tripRepoUpdate_rollback_preserves_children c9Store c9Payload
     (.duplicateKey "day_plans" "p") (by decide)).1⟩

/-! # Claim C8 -/

/-- **C8**: every trip the Public Trip Query Engine returns — under any
combination of filters, sort and pagination — has visibility `public`; hence a
private or unlisted trip, even one with `published_at` set, never appears in
`FindAll` results. -/
theorem findAll_only_public :
    ∀ (s : Store) (f : PublicTripFilters) (t : TripRow),
      t ∈ (findAll s f).1 → t.visibility = "public" := by
  intro s f t ht
  unfold findAll findAllItems at ht
  have h1 : t ∈ sortByB (findAllSortLe f.sort) (findAllMatches s f) :=
    List.mem_of_mem_drop (List.mem_of_mem_take ht)
  have h2 : t ∈ findAllMatches s f := mem_sortByB.mp h1
  have h3 := (List.mem_filter.mp h2).2
  simp only [findAllItemsPred, Bool.and_eq_true, decide_eq_true_eq] at h3
  exact h3.1.1.1.1.1

/-- Fixture: a store holding one public trip and one previously-published
trip that is now private. -/
def c8Unpublished : TripRow :=
  { c2Trip with id := "t8", visibility := "private", publishedAt := some 1 }

/-- Fixture store for the C8 witness. -/
def c8Store : Store :=
  { trips := [c2Trip, c8Unpublished], dayPlans := [], dayPlanDestinations := [],
    dayPlanActivities := [], tripDestinations := [], destinations := [], tripLikes := [] }

/-- Fixture: an unfiltered first-page query. -/
def c8Filters : PublicTripFilters :=
  { query := none, cities := [], durations := [], months := [], travelerTypes := [],
    sort := "featured", page := 1, pageSize := 12 }

/-- Witness for C8: on a concrete store the public trip is returned — and is
public — while the previously-published private trip is absent. -/
theorem findAll_only_public_witness :
    c2Trip ∈ (findAll c8Store c8Filters).1 ∧ c2Trip.visibility = "public" ∧
      ¬ c8Unpublished ∈ (findAll c8Store c8Filters).1 :=
  ⟨by decide, findAll_only_public c8Store c8Filters c2Trip (by decide), by decide⟩

/-! # Claim C7 -/

/-- The two separately built query predicates of `FindAll` — the item query's
and the count query's — agree (the count query re-applies the base visibility
condition and every filter). -/
theorem findAllCountPred_eq_itemsPred : findAllCountPred = findAllItemsPred := rfl

/-- **C7**: for every `findPublic` call, the page defaults to 1 and the page
size to 12 when absent or non-positive; the returned total equals the number
of public trips matching all supplied filters before pagination;
`hasMorePages` holds exactly when `page * pageSize < total`; and the returned
items are the page-th slice of size `pageSize` of one fixed ordering of that
same filtered set. -/
theorem listPublicTrips_pagination_total :
    ∀ (s : Store) (req : ListPublicTripsRequest),
      (listPublicTrips s req).page = (if req.page ≤ 0 then 1 else req.page) ∧
      (listPublicTrips s req).pageSize = (if req.pageSize ≤ 0 then 12 else req.pageSize) ∧
      (listPublicTrips s req).total =
        ((findAllMatches s (normFilters req)).length : Int) ∧
      ((listPublicTrips s req).hasMorePages = true ↔
        (listPublicTrips s req).page * (listPublicTrips s req).pageSize <
          (listPublicTrips s req).total) ∧
      ∃ l : List TripRow, l.Perm (findAllMatches s (normFilters req)) ∧
        (listPublicTrips s req).trips =
          (l.drop ((((listPublicTrips s req).page - 1) *
              (listPublicTrips s req).pageSize).toNat)).take
            ((listPublicTrips s req).pageSize).toNat := by
  intro s req
  refine ⟨rfl, rfl, ?_, ?_, ?_⟩
  · show findAllTotal s (normFilters req) = _
    unfold findAllTotal findAllMatches
    rw [findAllCountPred_eq_itemsPred]
  · exact decide_eq_true_iff
  · exact ⟨sortByB (findAllSortLe (normFilters req).sort) (findAllMatches s (normFilters req)),
      sortByB_perm _ _, rfl⟩

/-! # Claim C10 -/

/-- The defect condition `validateTrip` screens for: empty name, traveler
count below 1, a missing date, or a start-date string lexicographically
greater than the end-date string. -/
def badTripInput (t : TripRow) : Prop :=
  t.name = "" ∨ t.travelerCount < 1 ∨ t.startDate = "" ∨ t.endDate = "" ∨
    strGtB t.startDate t.endDate = true

instance (t : TripRow) : Decidable (badTripInput t) := by
  unfold badTripInput; infer_instance

/-- `validateTrip` rejects — with a ValidationError — exactly the defective
inputs; in particular equal start and end dates pass. -/
theorem validateTrip_some_iff (t : TripRow) :
    (∃ m, validateTrip t = some (.validation m)) ↔ badTripInput t := by
  unfold validateTrip badTripInput
  split_ifs with h1 h2 h3 h4
  · exact iff_of_true ⟨_, rfl⟩ (Or.inl h1)
  · exact iff_of_true ⟨_, rfl⟩ (Or.inr (Or.inl h2))
  · exact iff_of_true ⟨_, rfl⟩ (Or.inr (Or.inr (h3.imp id Or.inl)))
  · exact iff_of_true ⟨_, rfl⟩ (Or.inr (Or.inr (Or.inr (Or.inr h4))))
  · constructor
    · rintro ⟨m, hm⟩
      exact hm.elim
    · rintro (h | h | h | h | h)
      · exact absurd h h1
      · exact absurd h h2
      · exact absurd (Or.inl h) h3
      · exact absurd (Or.inr h) h3
      · exact absurd h h4

/-- `validateTrip` reads only the name, the traveler count and the two date
strings. -/
theorem validateTrip_congr (a b : TripRow) (h1 : a.name = b.name)
    (h2 : a.travelerCount = b.travelerCount) (h3 : a.startDate = b.startDate)
    (h4 : a.endDate = b.endDate) : validateTrip a = validateTrip b := by
  unfold validateTrip
  rw [h1, h2, h3, h4]

/-- The create preparation keeps the four validated fields of the input. -/
theorem prepCreate_fields (now : Nat) (g : IdGen) (userId : String) (trip : TripAgg) :
    (prepCreate now g userId trip).1.row.name = trip.row.name ∧
      (prepCreate now g userId trip).1.row.travelerCount = trip.row.travelerCount ∧
      (prepCreate now g userId trip).1.row.startDate = trip.row.startDate ∧
      (prepCreate now g userId trip).1.row.endDate = trip.row.endDate := by
  unfold prepCreate
  by_cases h : ({ trip.row with userId := userId } : TripRow).id = "" <;>
    simp [h]

/-- **C10**: `validateTrip` returns a ValidationError exactly when the trip
has an empty name, a traveler count below 1, an empty start or end date, or a
start-date string that compares (lexicographically) greater than the end-date
string — so equal dates are accepted; and on any such defective input both the
create and the update service operations return that ValidationError with the
store untouched. -/
theorem trip_validation_gate :
    ∀ (t : TripRow) (now : Nat) (s : Store) (g : IdGen) (userId : String) (trip : TripAgg),
      ((∃ m, validateTrip t = some (.validation m)) ↔ badTripInput t) ∧
      (badTripInput trip.row →
        (∃ m, (createTripValidated now s g userId trip).1 = (.error (.validation m), s)) ∧
        (∃ m, updateTripValidated now s userId trip = (.error (.validation m), s))) := by
  intro t now s g userId trip
  refine ⟨validateTrip_some_iff t, fun hbad => ⟨?_, ?_⟩⟩
  · rcases hp : prepCreate now g userId trip with ⟨trip1, g2⟩
    have hf := prepCreate_fields now g userId trip
    rw [hp] at hf
    obtain ⟨m, hm⟩ := (validateTrip_some_iff trip.row).mpr hbad
    have heq : validateTrip trip1.row = some (.validation m) := by
      rw [validateTrip_congr _ _ hf.1 hf.2.1 hf.2.2.1 hf.2.2.2, hm]
    refine ⟨m, ?_⟩
    unfold createTripValidated
    rw [hp]
    simp only [heq]
  · obtain ⟨m, hm⟩ := (validateTrip_some_iff trip.row).mpr hbad
    have heq : validateTrip (prepUpdate now userId trip).row = some (.validation m) := by
      rw [validateTrip_congr (prepUpdate now userId trip).row trip.row rfl rfl rfl rfl, hm]
    refine ⟨m, ?_⟩
    unfold updateTripValidated
    simp only [heq]

/-- Fixture: an otherwise well-formed trip input with an empty name. -/
def c10Bad : TripAgg :=
  { row :=
      { id := "t10", userId := "", name := "", description := none,
        travelerCount := 1, startDate := "2025-05-01", endDate := "2025-05-01",
        timezone := none, coverImage := none, heroImage := none,
        visibility := "", status := "", summary := none,
        travelerType := "", likes := 0, cloneCount := 0, createdAt := 0, updatedAt := 0,
        publishedAt := none }
    dayPlans := []
    tripDestinations := [] }

/-- Fixture: empty store for the validation witness. -/
def c10Store : Store :=
  { trips := [], dayPlans := [], dayPlanDestinations := [],
    dayPlanActivities := [], tripDestinations := [], destinations := [], tripLikes := [] }

/-- Fixture: id supply for the validation witness. -/
def c10Gen : IdGen := { stream := fun _ => "gen", next := 0 }

/-- Witness for C10: the empty-name input is rejected by create with the store
untouched, while the same trip with a name and equal start/end dates passes
validation. -/
theorem trip_validation_gate_witness :
    (∃ m, (createTripValidated 9 c10Store c10Gen "u1" c10Bad).1 =
      (.error (.validation m), c10Store)) ∧
    validateTrip { c10Bad.row with name := "ok" } = none :=
  ⟨((trip_validation_gate c10Bad.row 9 c10Store c10Gen "u1" c10Bad).2
      (by decide)).1,
   by decide⟩

/-! # Insert-success lemmas

When every id about to be inserted is fresh for the whole store and the ids
are mutually distinct, each `tx.Create` step succeeds; the store's id universe
grows by exactly those ids. -/

theorem mem_storeIds_trips {s : Store} {r : TripRow} (h : r ∈ s.trips) :
    r.id ∈ storeIds s := by
  unfold storeIds
  simp only [List.mem_append, List.mem_map]
  exact Or.inl (Or.inl (Or.inl (Or.inl (Or.inl (Or.inl ⟨r, h, rfl⟩)))))

theorem mem_storeIds_dayPlans {s : Store} {r : DayPlanRow} (h : r ∈ s.dayPlans) :
    r.id ∈ storeIds s := by
  unfold storeIds
  simp only [List.mem_append, List.mem_map]
  exact Or.inl (Or.inl (Or.inl (Or.inl (Or.inl (Or.inr ⟨r, h, rfl⟩)))))

theorem mem_storeIds_dpds {s : Store} {r : DayPlanDestinationRow}
    (h : r ∈ s.dayPlanDestinations) : r.id ∈ storeIds s := by
  unfold storeIds
  simp only [List.mem_append, List.mem_map]
  exact Or.inl (Or.inl (Or.inl (Or.inl (Or.inr ⟨r, h, rfl⟩))))

theorem mem_storeIds_dpas {s : Store} {r : DayPlanActivityRow}
    (h : r ∈ s.dayPlanActivities) : r.id ∈ storeIds s := by
  unfold storeIds
  simp only [List.mem_append, List.mem_map]
  exact Or.inl (Or.inl (Or.inl (Or.inr ⟨r, h, rfl⟩)))

theorem mem_storeIds_tds {s : Store} {r : TripDestinationRow}
    (h : r ∈ s.tripDestinations) : r.id ∈ storeIds s := by
  unfold storeIds
  simp only [List.mem_append, List.mem_map]
  exact Or.inl (Or.inl (Or.inr ⟨r, h, rfl⟩))

theorem insertDPDRow_ok {s : Store} {d : String} {r : DayPlanDestinationRow}
    (h : ¬ r.id ∈ storeIds s) :
    ∃ s1, insertDPDRow s d r = .ok s1 ∧ s1.trips = s.trips ∧
      (∀ x, x ∈ storeIds s1 ↔ x ∈ storeIds s ∨ x = r.id) := by
  have hc : s.dayPlanDestinations.any (fun x => decide (x.id = r.id)) = false := by
    rw [List.any_eq_false]
    intro x hx hid
    exact h (of_decide_eq_true hid ▸ mem_storeIds_dpds hx)
  refine ⟨{ s with dayPlanDestinations := s.dayPlanDestinations ++ [{ r with dayPlanId := d }] }, ?_, rfl, fun x => ?_⟩
  · unfold insertDPDRow
    rw [hc]
    rfl
  · unfold storeIds
    simp only [List.map_append, List.mem_append, List.map_cons, List.map_nil,
      List.mem_cons, List.not_mem_nil, or_false]
    tauto

theorem insertDPARow_ok {s : Store} {d : String} {r : DayPlanActivityRow}
    (h : ¬ r.id ∈ storeIds s) :
    ∃ s1, insertDPARow s d r = .ok s1 ∧ s1.trips = s.trips ∧
      (∀ x, x ∈ storeIds s1 ↔ x ∈ storeIds s ∨ x = r.id) := by
  have hc : s.dayPlanActivities.any (fun x => decide (x.id = r.id)) = false := by
    rw [List.any_eq_false]
    intro x hx hid
    exact h (of_decide_eq_true hid ▸ mem_storeIds_dpas hx)
  refine ⟨{ s with dayPlanActivities := s.dayPlanActivities ++ [{ r with dayPlanId := d }] }, ?_, rfl, fun x => ?_⟩
  · unfold insertDPARow
    rw [hc]
    rfl
  · unfold storeIds
    simp only [List.map_append, List.mem_append, List.map_cons, List.map_nil,
      List.mem_cons, List.not_mem_nil, or_false]
    tauto

theorem insertTDRow_ok {s : Store} {d : String} {r : TripDestinationRow}
    (h : ¬ r.id ∈ storeIds s) :
    ∃ s1, insertTDRow s d r = .ok s1 ∧ s1.trips = s.trips ∧
      (∀ x, x ∈ storeIds s1 ↔ x ∈ storeIds s ∨ x = r.id) := by
  have hc : s.tripDestinations.any (fun x => decide (x.id = r.id)) = false := by
    rw [List.any_eq_false]
    intro x hx hid
    exact h (of_decide_eq_true hid ▸ mem_storeIds_tds hx)
  refine ⟨{ s with tripDestinations := s.tripDestinations ++ [{ r with tripId := d }] }, ?_, rfl, fun x => ?_⟩
  · unfold insertTDRow
    rw [hc]
    rfl
  · unfold storeIds
    simp only [List.map_append, List.mem_append, List.map_cons, List.map_nil,
      List.mem_cons, List.not_mem_nil, or_false]
    tauto

theorem insertTripRow_ok {s : Store} {r : TripRow}
    (h : ¬ r.id ∈ storeIds s) :
    ∃ s1, insertTripRow s r = .ok s1 ∧
      (∀ x, x ∈ storeIds s1 ↔ x ∈ storeIds s ∨ x = r.id) := by
  have hc : s.trips.any (fun x => decide (x.id = r.id)) = false := by
    rw [List.any_eq_false]
    intro x hx hid
    exact h (of_decide_eq_true hid ▸ mem_storeIds_trips hx)
  refine ⟨{ s with trips := s.trips ++ [r] }, ?_, fun x => ?_⟩
  · unfold insertTripRow
    rw [hc]
    rfl
  · unfold storeIds
    simp only [List.map_append, List.mem_append, List.map_cons, List.map_nil,
      List.mem_cons, List.not_mem_nil, or_false]
    tauto

theorem insertDPDRows_ok (d : String) :
    ∀ (l : List DayPlanDestinationRow) (s : Store),
      (l.map (fun r => r.id)).Nodup →
      (∀ r ∈ l, ¬ r.id ∈ storeIds s) →
      ∃ s1, insertDPDRows s d l = .ok s1 ∧ s1.trips = s.trips ∧
        (∀ x, x ∈ storeIds s1 ↔ x ∈ storeIds s ∨ x ∈ l.map (fun r => r.id)) := by
  intro l
  induction l with
  | nil =>
    intro s _ _
    exact ⟨s, rfl, rfl, by simp⟩
  | cons r rest ih =>
    intro s hnd hfresh
    obtain ⟨s1, heq, htr, hmem⟩ := insertDPDRow_ok (hfresh r (List.mem_cons_self r rest))
    have hnd2 : (rest.map (fun r => r.id)).Nodup := (List.nodup_cons.mp hnd).2
    have hfresh2 : ∀ q ∈ rest, ¬ q.id ∈ storeIds s1 := by
      intro q hq hmem2
      rcases (hmem q.id).mp hmem2 with h1 | h1
      · exact hfresh q (List.mem_cons_of_mem r hq) h1
      · have hq2 : q.id ∈ rest.map (fun r => r.id) := List.mem_map_of_mem (fun r => r.id) hq
        rw [h1] at hq2
        exact (List.nodup_cons.mp hnd).1 hq2
    obtain ⟨s2, heq2, htr2, hmem2⟩ := ih s1 hnd2 hfresh2
    refine ⟨s2, ?_, htr2.trans htr, fun x => ?_⟩
    · unfold insertDPDRows
      rw [heq]
      exact heq2
    · rw [hmem2 x, hmem x]
      simp only [List.map_cons, List.mem_cons]
      tauto

theorem insertDPARows_ok (d : String) :
    ∀ (l : List DayPlanActivityRow) (s : Store),
      (l.map (fun r => r.id)).Nodup →
      (∀ r ∈ l, ¬ r.id ∈ storeIds s) →
      ∃ s1, insertDPARows s d l = .ok s1 ∧ s1.trips = s.trips ∧
        (∀ x, x ∈ storeIds s1 ↔ x ∈ storeIds s ∨ x ∈ l.map (fun r => r.id)) := by
  intro l
  induction l with
  | nil =>
    intro s _ _
    exact ⟨s, rfl, rfl, by simp⟩
  | cons r rest ih =>
    intro s hnd hfresh
    obtain ⟨s1, heq, htr, hmem⟩ := insertDPARow_ok (hfresh r (List.mem_cons_self r rest))
    have hnd2 : (rest.map (fun r => r.id)).Nodup := (List.nodup_cons.mp hnd).2
    have hfresh2 : ∀ q ∈ rest, ¬ q.id ∈ storeIds s1 := by
      intro q hq hmem2
      rcases (hmem q.id).mp hmem2 with h1 | h1
      · exact hfresh q (List.mem_cons_of_mem r hq) h1
      · have hq2 : q.id ∈ rest.map (fun r => r.id) := List.mem_map_of_mem (fun r => r.id) hq
        rw [h1] at hq2
        exact (List.nodup_cons.mp hnd).1 hq2
    obtain ⟨s2, heq2, htr2, hmem2⟩ := ih s1 hnd2 hfresh2
    refine ⟨s2, ?_, htr2.trans htr, fun x => ?_⟩
    · unfold insertDPARows
      rw [heq]
      exact heq2
    · rw [hmem2 x, hmem x]
      simp only [List.map_cons, List.mem_cons]
      tauto

theorem insertTDRows_ok (d : String) :
    ∀ (l : List TripDestinationRow) (s : Store),
      (l.map (fun r => r.id)).Nodup →
      (∀ r ∈ l, ¬ r.id ∈ storeIds s) →
      ∃ s1, insertTDRows s d l = .ok s1 ∧ s1.trips = s.trips ∧
        (∀ x, x ∈ storeIds s1 ↔ x ∈ storeIds s ∨ x ∈ l.map (fun r => r.id)) := by
  intro l
  induction l with
  | nil =>
    intro s _ _
    exact ⟨s, rfl, rfl, by simp⟩
  | cons r rest ih =>
    intro s hnd hfresh
    obtain ⟨s1, heq, htr, hmem⟩ := insertTDRow_ok (hfresh r (List.mem_cons_self r rest))
    have hnd2 : (rest.map (fun r => r.id)).Nodup := (List.nodup_cons.mp hnd).2
    have hfresh2 : ∀ q ∈ rest, ¬ q.id ∈ storeIds s1 := by
      intro q hq hmem2
      rcases (hmem q.id).mp hmem2 with h1 | h1
      · exact hfresh q (List.mem_cons_of_mem r hq) h1
      · have hq2 : q.id ∈ rest.map (fun r => r.id) := List.mem_map_of_mem (fun r => r.id) hq
        rw [h1] at hq2
        exact (List.nodup_cons.mp hnd).1 hq2
    obtain ⟨s2, heq2, htr2, hmem2⟩ := ih s1 hnd2 hfresh2
    refine ⟨s2, ?_, htr2.trans htr, fun x => ?_⟩
    · unfold insertTDRows
      rw [heq]
      exact heq2
    · rw [hmem2 x, hmem x]
      simp only [List.map_cons, List.mem_cons]
      tauto

/-! # Clone generator lemmas

The clone helpers consume the id supply left to right: the identities they
mint are exactly `g.stream` applied to a contiguous index range, and the
referenced destination/activity identities are copied verbatim. -/

/-- How many identities cloning one day plan mints. -/
def dayPlanIdCount (d : DayPlanAgg) : Nat :=
  1 + d.dayPlanDestinations.length + d.dayPlanActivities.length

/-- How many identities cloning a whole trip mints. -/
def tripIdCount (t : TripAgg) : Nat :=
  1 + (t.dayPlans.map dayPlanIdCount).sum + t.tripDestinations.length

theorem cloneDPDs_spec (day : String) :
    ∀ (l : List DayPlanDestinationRow) (g : IdGen),
      (cloneDPDs g day l).2.stream = g.stream ∧
      (cloneDPDs g day l).2.next = g.next + l.length ∧
      (cloneDPDs g day l).1.map (fun r => r.id) =
        (List.range' g.next l.length).map g.stream ∧
      (cloneDPDs g day l).1.map (fun r => r.destinationId) =
        l.map (fun r => r.destinationId) := by
  intro l
  induction l with
  | nil => intro g; exact ⟨rfl, rfl, rfl, rfl⟩
  | cons r rest ih =>
    intro g
    rcases hrec : cloneDPDs { g with next := g.next + 1 } day rest with ⟨others, g2⟩
    obtain ⟨hs, hn, hid, hdest⟩ := ih { g with next := g.next + 1 }
    rw [hrec] at hs hn hid hdest
    have hexp : cloneDPDs g day (r :: rest) =
        ({ id := g.stream g.next, dayPlanId := day, destinationId := r.destinationId,
           orderIndex := r.orderIndex } :: others, g2) := by
      simp only [cloneDPDs, genId]
      rw [hrec]
    rw [hexp]
    refine ⟨hs, by rw [hn]; simp; omega, ?_, ?_⟩
    · rw [List.map_cons, hid, List.length_cons,
        show List.range' g.next (rest.length + 1) =
          g.next :: List.range' (g.next + 1) rest.length from rfl,
        List.map_cons]
    · rw [List.map_cons, hdest, List.map_cons]

theorem cloneDPAs_spec (day : String) :
    ∀ (l : List DayPlanActivityRow) (g : IdGen),
      (cloneDPAs g day l).2.stream = g.stream ∧
      (cloneDPAs g day l).2.next = g.next + l.length ∧
      (cloneDPAs g day l).1.map (fun r => r.id) =
        (List.range' g.next l.length).map g.stream ∧
      (cloneDPAs g day l).1.map (fun r => r.activityId) =
        l.map (fun r => r.activityId) := by
  intro l
  induction l with
  | nil => intro g; exact ⟨rfl, rfl, rfl, rfl⟩
  | cons r rest ih =>
    intro g
    rcases hrec : cloneDPAs { g with next := g.next + 1 } day rest with ⟨others, g2⟩
    obtain ⟨hs, hn, hid, hact⟩ := ih { g with next := g.next + 1 }
    rw [hrec] at hs hn hid hact
    have hexp : cloneDPAs g day (r :: rest) =
        ({ id := g.stream g.next, dayPlanId := day, activityId := r.activityId,
           timeOfDay := r.timeOfDay, orderWithinTime := r.orderWithinTime } :: others, g2) := by
      simp only [cloneDPAs, genId]
      rw [hrec]
    rw [hexp]
    refine ⟨hs, by rw [hn]; simp; omega, ?_, ?_⟩
    · rw [List.map_cons, hid, List.length_cons,
        show List.range' g.next (rest.length + 1) =
          g.next :: List.range' (g.next + 1) rest.length from rfl,
        List.map_cons]
    · rw [List.map_cons, hact, List.map_cons]

theorem cloneTDs_spec (tid : String) :
    ∀ (l : List TripDestinationRow) (g : IdGen),
      (cloneTDs g tid l).2.stream = g.stream ∧
      (cloneTDs g tid l).2.next = g.next + l.length ∧
      (cloneTDs g tid l).1.map (fun r => r.id) =
        (List.range' g.next l.length).map g.stream ∧
      (cloneTDs g tid l).1.map (fun r => r.destinationId) =
        l.map (fun r => r.destinationId) := by
  intro l
  induction l with
  | nil => intro g; exact ⟨rfl, rfl, rfl, rfl⟩
  | cons r rest ih =>
    intro g
    rcases hrec : cloneTDs { g with next := g.next + 1 } tid rest with ⟨others, g2⟩
    obtain ⟨hs, hn, hid, hdest⟩ := ih { g with next := g.next + 1 }
    rw [hrec] at hs hn hid hdest
    have hexp : cloneTDs g tid (r :: rest) =
        ({ id := g.stream g.next, tripId := tid, destinationId := r.destinationId,
           orderIndex := r.orderIndex } :: others, g2) := by
      simp only [cloneTDs, genId]
      rw [hrec]
    rw [hexp]
    refine ⟨hs, by rw [hn]; simp; omega, ?_, ?_⟩
    · rw [List.map_cons, hid, List.length_cons,
        show List.range' g.next (rest.length + 1) =
          g.next :: List.range' (g.next + 1) rest.length from rfl,
        List.map_cons]
    · rw [List.map_cons, hdest, List.map_cons]

theorem cloneDayPlan_spec (now : Nat) (tid : String) (d : DayPlanAgg) (g : IdGen) :
    (cloneDayPlan now g tid d).2.stream = g.stream ∧
    (cloneDayPlan now g tid d).2.next = g.next + dayPlanIdCount d ∧
    dayPlanStructIds (cloneDayPlan now g tid d).1 =
      (List.range' g.next (dayPlanIdCount d)).map g.stream ∧
    dayPlanRefIds (cloneDayPlan now g tid d).1 = dayPlanRefIds d := by
  obtain ⟨hs1, hn1, hid1, hdest1⟩ :=
    cloneDPDs_spec (g.stream g.next) d.dayPlanDestinations { g with next := g.next + 1 }
  rcases hdpd : cloneDPDs { g with next := g.next + 1 } (g.stream g.next)
      d.dayPlanDestinations with ⟨dpds, g2⟩
  rw [hdpd] at hs1 hn1 hid1 hdest1
  obtain ⟨hs2, hn2, hid2, hact2⟩ :=
    cloneDPAs_spec (g.stream g.next) d.dayPlanActivities g2
  rcases hdpa : cloneDPAs g2 (g.stream g.next) d.dayPlanActivities with ⟨dpas, g3⟩
  rw [hdpa] at hs2 hn2 hid2 hact2
  have hexp : cloneDayPlan now g tid d =
      ({ row :=
          { id := g.stream g.next
            tripId := tid
            date := d.row.date
            dayNumber := d.row.dayNumber
            notes := d.row.notes
            createdAt := now
            updatedAt := now }
         dayPlanDestinations := dpds
         dayPlanActivities := dpas }, g3) := by
    simp only [cloneDayPlan, genId]
    rw [hdpd, hdpa]
  rw [hexp]
  have hnext1 : g2.next = g.next + 1 + d.dayPlanDestinations.length := hn1
  rw [hs1] at hs2 hid2
  rw [hnext1] at hn2 hid2
  refine ⟨hs2, ?_, ?_, ?_⟩
  · rw [hn2]
    unfold dayPlanIdCount
    omega
  · unfold dayPlanStructIds
    simp only
    rw [hid1, hid2]
    have happ : List.range' (g.next + 1) d.dayPlanDestinations.length ++
        List.range' (g.next + 1 + d.dayPlanDestinations.length) d.dayPlanActivities.length =
        List.range' (g.next + 1)
          (d.dayPlanActivities.length + d.dayPlanDestinations.length) := by
      simp
    rw [← List.map_append, happ]
    have hc : dayPlanIdCount d =
        (d.dayPlanActivities.length + d.dayPlanDestinations.length) + 1 := by
      unfold dayPlanIdCount
      omega
    rw [hc,
      show List.range' g.next
          ((d.dayPlanActivities.length + d.dayPlanDestinations.length) + 1) =
        g.next :: List.range' (g.next + 1)
          (d.dayPlanActivities.length + d.dayPlanDestinations.length) from rfl,
      List.map_cons]
  · unfold dayPlanRefIds
    simp only
    rw [hdest1, hact2]

theorem cloneDayPlans_spec (now : Nat) (tid : String) :
    ∀ (plans : List DayPlanAgg) (g : IdGen),
      (cloneDayPlans now g tid plans).2.stream = g.stream ∧
      (cloneDayPlans now g tid plans).2.next = g.next + (plans.map dayPlanIdCount).sum ∧
      (((cloneDayPlans now g tid plans).1.map dayPlanStructIds).flatten =
        (List.range' g.next ((plans.map dayPlanIdCount).sum)).map g.stream) ∧
      (((cloneDayPlans now g tid plans).1.map dayPlanRefIds).flatten =
        (plans.map dayPlanRefIds).flatten) := by
  intro plans
  induction plans with
  | nil => intro g; exact ⟨rfl, rfl, rfl, rfl⟩
  | cons d rest ih =>
    intro g
    obtain ⟨hs1, hn1, hid1, href1⟩ := cloneDayPlan_spec now tid d g
    rcases hd : cloneDayPlan now g tid d with ⟨cd, g1⟩
    rw [hd] at hs1 hn1 hid1 href1
    obtain ⟨hs2, hn2, hid2, href2⟩ := ih g1
    rcases hrest : cloneDayPlans now g1 tid rest with ⟨others, g2⟩
    rw [hrest] at hs2 hn2 hid2 href2
    have hexp : cloneDayPlans now g tid (d :: rest) = (cd :: others, g2) := by
      simp only [cloneDayPlans]
      rw [hd, hrest]
    rw [hexp]
    rw [hs1] at hs2 hid2
    rw [hn1] at hn2 hid2
    refine ⟨hs2, ?_, ?_, ?_⟩
    · rw [hn2]
      simp only [List.map_cons, List.sum_cons]
      omega
    · simp only [List.map_cons, List.flatten_cons]
      rw [hid1, hid2]
      have happ : List.range' g.next (dayPlanIdCount d) ++
          List.range' (g.next + dayPlanIdCount d) ((rest.map dayPlanIdCount).sum) =
          List.range' g.next ((rest.map dayPlanIdCount).sum + dayPlanIdCount d) := by
        simp
      rw [← List.map_append, happ, List.sum_cons,
        show dayPlanIdCount d + (rest.map dayPlanIdCount).sum =
          (rest.map dayPlanIdCount).sum + dayPlanIdCount d from by omega]
    · simp only [List.map_cons, List.flatten_cons]
      rw [href1, href2]

theorem buildClone_spec (now : Nat) (g : IdGen) (caller nm : String) (P : TripAgg) :
    (buildClone now g caller nm P).2.stream = g.stream ∧
    (buildClone now g caller nm P).1.row.visibility = "private" ∧
    (buildClone now g caller nm P).1.row.status = "planning" ∧
    (buildClone now g caller nm P).1.row.userId = caller ∧
    (buildClone now g caller nm P).1.row.name = nm ∧
    tripStructIds (buildClone now g caller nm P).1 =
      (List.range' g.next (tripIdCount P)).map g.stream ∧
    tripRefIds (buildClone now g caller nm P).1 = tripRefIds P := by
  obtain ⟨hs1, hn1, hid1, href1⟩ :=
    cloneDayPlans_spec now (g.stream g.next) P.dayPlans { g with next := g.next + 1 }
  rcases hdays : cloneDayPlans now { g with next := g.next + 1 } (g.stream g.next)
      P.dayPlans with ⟨days, g2⟩
  rw [hdays] at hs1 hn1 hid1 href1
  obtain ⟨hs2, hn2, hid2, hdest2⟩ := cloneTDs_spec (g.stream g.next) P.tripDestinations g2
  rcases htds : cloneTDs g2 (g.stream g.next) P.tripDestinations with ⟨tds, g3⟩
  rw [htds] at hs2 hn2 hid2 hdest2
  have hexp : buildClone now g caller nm P =
      ({ row :=
          { id := g.stream g.next
            userId := caller
            name := nm
            description := P.row.description
            travelerCount := P.row.travelerCount
            startDate := P.row.startDate
            endDate := P.row.endDate
            timezone := P.row.timezone
            coverImage := P.row.coverImage
            heroImage := P.row.heroImage
            visibility := "private"
            status := "planning"
            summary := none
            travelerType := P.row.travelerType
            likes := 0
            cloneCount := 0
            createdAt := now
            updatedAt := now
            publishedAt := none }
         dayPlans := days
         tripDestinations := tds }, g3) := by
    simp only [buildClone, genId]
    rw [hdays, htds]
  rw [hexp]
  rw [hs1] at hs2 hid2
  rw [hn1] at hn2 hid2
  refine ⟨hs2, rfl, rfl, rfl, rfl, ?_, ?_⟩
  · unfold tripStructIds
    simp only
    rw [hid1, hid2]
    have happ : List.range' (g.next + 1) ((P.dayPlans.map dayPlanIdCount).sum) ++
        List.range' (g.next + 1 + (P.dayPlans.map dayPlanIdCount).sum)
          P.tripDestinations.length =
        List.range' (g.next + 1)
          (P.tripDestinations.length + (P.dayPlans.map dayPlanIdCount).sum) := by
      simp
    rw [← List.map_append, happ]
    have hc : tripIdCount P =
        (P.tripDestinations.length + (P.dayPlans.map dayPlanIdCount).sum) + 1 := by
      unfold tripIdCount
      omega
    rw [hc,
      show List.range' g.next
          ((P.tripDestinations.length + (P.dayPlans.map dayPlanIdCount).sum) + 1) =
        g.next :: List.range' (g.next + 1)
          (P.tripDestinations.length + (P.dayPlans.map dayPlanIdCount).sum) from rfl,
      List.map_cons]
  · unfold tripRefIds
    simp only
    rw [href1, hdest2]

/-- A trip returned by the public-only `FindByID` is public. -/
theorem publicFindByID_ok {s : Store} {pid : String} {P : TripAgg}
    (h : publicFindByID s pid = .ok P) : P.row.visibility = "public" := by
  unfold publicFindByID at h
  cases hf : s.trips.find?
      (fun t => decide (t.id = pid) && decide (t.visibility = "public")) with
  | none => rw [hf] at h; exact absurd h (by simp)
  | some t =>
    rw [hf] at h
    have hp := List.find?_some hf
    simp only [Bool.and_eq_true, decide_eq_true_eq] at hp
    cases h
    exact hp.2

/-- When no public trip carries the requested id, the public-only `FindByID`
reports `ErrRecordNotFound`. -/
theorem publicFindByID_none {s : Store} {pid : String}
    (h : ∀ t ∈ s.trips, t.id = pid → ¬ t.visibility = "public") :
    publicFindByID s pid = .error .recordNotFound := by
  unfold publicFindByID
  have hn : s.trips.find?
      (fun t => decide (t.id = pid) && decide (t.visibility = "public")) = none := by
    rw [List.find?_eq_none]
    intro t ht hpred
    simp only [Bool.and_eq_true, decide_eq_true_eq] at hpred
    exact h t ht hpred.1 hpred.2
  rw [hn]

/-! # Claim C1 -/

/-- Fixture: a public trip owned by alice. -/
def c1Trip : TripRow :=
  { id := "t1", userId := "alice", name := "Tokyo Week", description := some "a week",
    travelerCount := 2, startDate := "2025-05-01", endDate := "2025-05-07",
    timezone := none, coverImage := none, heroImage := none,
    visibility := "public", status := "active", summary := some "sum",
    travelerType := "solo", likes := 3, cloneCount := 0, createdAt := 1, updatedAt := 2,
    publishedAt := some 2 }

/-- Fixture: the public trip's day plan. -/
def c1Day : DayPlanRow :=
  { id := "d1", tripId := "t1", date := "2025-05-01", dayNumber := 1, notes := none,
    createdAt := 1, updatedAt := 1 }

/-- Fixture: a day-plan-destination link referencing shared destination
`dest5`. -/
def c1DPD : DayPlanDestinationRow :=
  { id := "y1", dayPlanId := "d1", destinationId := "dest5", orderIndex := 0 }

/-- Fixture: a day-plan-activity link referencing shared activity `act7`. -/
def c1DPA : DayPlanActivityRow :=
  { id := "x1", dayPlanId := "d1", activityId := "act7", timeOfDay := "start",
    orderWithinTime := 0 }

/-- Fixture: a trip-destination link referencing `dest5`. -/
def c1TD : TripDestinationRow :=
  { id := "z1", tripId := "t1", destinationId := "dest5", orderIndex := 0 }

/-- Fixture store: the public trip with its full subtree. -/
def c1Store : Store :=
  { trips := [c1Trip], dayPlans := [c1Day], dayPlanDestinations := [c1DPD],
    dayPlanActivities := [c1DPA], tripDestinations := [c1TD],
    destinations := [], tripLikes := [] }

/-- Fixture: an id supply minting `new0`, `new1`, … -/
def c1Gen : IdGen := { stream := fun n => "new" ++ n.repr, next := 0 }

/-- Fixture: the loaded source aggregate. -/
def c1P : TripAgg := loadTripAgg c1Store c1Trip

/-- Fixture: a store whose only trip `t9` is private. -/
def c1PrivStore : Store :=
  { trips := [{ c1Trip with id := "t9", visibility := "private" }],
    dayPlans := [], dayPlanDestinations := [], dayPlanActivities := [],
    tripDestinations := [], destinations := [], tripLikes := [] }

/-- Fixture: a public trip without day plans. -/
def c1FreeTrip : TripRow := { c1Trip with id := "t2" }

/-- Fixture: a trip-destination link of the day-plan-free trip, referencing the
shared destination `dest5`. -/
def c1FreeTD : TripDestinationRow :=
  { id := "z2", tripId := "t2", destinationId := "dest5", orderIndex := 0 }

/-- Fixture store: the day-plan-free public trip. -/
def c1FreeStore : Store :=
  { trips := [c1FreeTrip], dayPlans := [], dayPlanDestinations := [],
    dayPlanActivities := [], tripDestinations := [c1FreeTD],
    destinations := [], tripLikes := [] }

/-- **C1** (code bug, evaluated at the failing input): the claim — and the
spec's deep-copy contract — say cloning a public trip returns a new,
fully re-identified private copy.  The real `tripRepository.Create` persists
`trip.DayPlans` twice: once through `tx.Create(trip)`'s association autosave
(the same autosave its trip-destination persistence relies on) and once
through the explicit re-create loop, whose plain insert then hits a
primary-key conflict; the transaction rolls back, so `ClonePublicTrip`
returns a DB error for every day-planned public source (here: the clone's
day-plan id `new1` collides with itself).  For a source without day plans the
clone does succeed — but its links keep the source's referenced destination
identity `dest5`, so even then an id from the source's subtree appears in the
clone's subtree; and for a private trip the call correctly reports not-found
and creates nothing. -/
theorem clonePublicTrip_dayplan_create_conflict :
    c1Trip.visibility = "public" ∧
    (clonePublicTrip 9 c1Store c1Gen "t1" "bob" "Copy").1 =
      .error (.db (.duplicateKey "day_plans" "new1")) ∧
    ((clonePublicTrip 9 c1FreeStore c1Gen "t2" "bob" "Copy").1.toOption.map
        (fun p => (p.1.row.visibility, p.1.row.userId,
          p.1.tripDestinations.map (fun r => r.destinationId)))) =
      some ("private", "bob", ["dest5"]) ∧
    "dest5" ∈ tripSubtreeIds (loadTripAgg c1FreeStore c1FreeTrip) ∧
    (clonePublicTrip 9 c1PrivStore c1Gen "t9" "bob" "Copy").1 =
      .error (.notFound "Public trip") := by
  decide

end Triply
